import Mathlib

/-!
# LibreCAD_3: DimRadial entity protocol and DocumentRenderer painter cache

A shallow embedding of

* `lckernel/cad/primitive/dimradial.cpp` (the `DimRadial` entity: move, copy, rotate, scale,
  mirror, modify, bounding box, drag points, properties), and
* `lcadviewer/documentrenderer.cpp` (the `DocumentRenderer`: the per-purpose painter cache,
  `scrollTo`, `render` and the reactions to document events),

followed by theorems about them.

Conventions of the embedding:

* `double` values and coordinates are exact rationals (`ℚ`).
* `std::map` is a key-unique association list (`StdMap`).
* C++ exceptions are the `Except Exn` monad; a function without a `throw` on any path is a
  plain function.
* Entity construction draws an id from a counter that is threaded through every operation
  that constructs an entity.
* Calls of the injected painter functors are recorded in an explicit call log.
* A painter is its affine transform from user space to device space and its stack of saved
  transforms; the cache holds the painter objects, one per entry.
* `render` returns the calls it makes on the painters and the calls of its callback, in
  order.
-/

set_option linter.dupNamespace false

namespace LibreCAD

/-! ## Exceptions -/

/-- Exceptions raised by the library calls used in the embedded code:
`std::map::at` raises `std::out_of_range`, `boost::get<T>` on a variant holding another
alternative raises `boost::bad_get`. -/
inductive Exn where
  | out_of_range
  | bad_get
  deriving DecidableEq, Repr

/-! ## std::map -/

/-- First value stored under key `k` in an association list. -/
def lookupEntries {K V : Type} [DecidableEq K] (k : K) : List (K × V) → Option V
  | [] => none
  | (k1, v1) :: rest => if k1 = k then some v1 else lookupEntries k rest

/-- Replace the value stored under `k`, or add the entry when `k` is absent. -/
def setEntries {K V : Type} [DecidableEq K] (k : K) (v : V) : List (K × V) → List (K × V)
  | [] => [(k, v)]
  | (k1, v1) :: rest => if k1 = k then (k, v) :: rest else (k1, v1) :: setEntries k v rest

theorem mem_keys_setEntries {K V : Type} [DecidableEq K] (k : K) (v : V) (l : List (K × V))
    (a : K) : a ∈ (setEntries k v l).map Prod.fst ↔ a = k ∨ a ∈ l.map Prod.fst := by
  induction l with
  | nil => simp [setEntries]
  | cons hd tl ih =>
    obtain ⟨k1, v1⟩ := hd
    by_cases h : k1 = k
    · subst h
      simp [setEntries]
    · simp only [setEntries, if_neg h, List.map_cons, List.mem_cons, ih]
      tauto

theorem nodup_keys_setEntries {K V : Type} [DecidableEq K] (k : K) (v : V) (l : List (K × V))
    (hl : (l.map Prod.fst).Nodup) : ((setEntries k v l).map Prod.fst).Nodup := by
  induction l with
  | nil => simp [setEntries]
  | cons hd tl ih =>
    obtain ⟨k1, v1⟩ := hd
    simp only [List.map_cons, List.nodup_cons] at hl
    by_cases h : k1 = k
    · subst h
      simpa [setEntries] using hl
    · simp only [setEntries, if_neg h, List.map_cons, List.nodup_cons, mem_keys_setEntries]
      exact ⟨fun hc => hc.elim h hl.1, ih hl.2⟩

/-- A `std::map<K, V>`: its entries, no key occurring twice. The order of `entries` is the
order in which a loop over the map visits them. A `std::map` visits its entries in key
order; the embedding admits every order, so what is proved of a loop over a map holds
whatever the order of the visit. -/
structure StdMap (K V : Type) [DecidableEq K] where
  entries : List (K × V)
  nodup : (entries.map Prod.fst).Nodup

namespace StdMap

variable {K V : Type} [DecidableEq K]

/-- The empty map (a default-constructed map, or a map after `clear()`). -/
def empty : StdMap K V := ⟨[], by simp⟩

/-- Lookup: `some v` when the map has an entry for `k`, `none` otherwise. -/
def find? (m : StdMap K V) (k : K) : Option V := lookupEntries k m.entries

/-- The member `count(k)`: 1 when the key is present, 0 otherwise. -/
def count (m : StdMap K V) (k : K) : Nat := if (m.find? k).isSome then 1 else 0

/-- The member `at(k)`: the stored value, or `std::out_of_range`. -/
def atKey (m : StdMap K V) (k : K) : Except Exn V :=
  match m.find? k with
  | some v => Except.ok v
  | none => Except.error Exn.out_of_range

/-- The assignment `m[k] = v`: the value under `k` is replaced, or the entry is added. -/
def set (m : StdMap K V) (k : K) (v : V) : StdMap K V :=
  ⟨setEntries k v m.entries, nodup_keys_setEntries k v m.entries m.nodup⟩

/-- The stored values, in iteration order. -/
def values (m : StdMap K V) : List V := m.entries.map Prod.snd

end StdMap

/-! ## Geometry -/

/-- Modelled from the spec: `lc::geo::Coordinate` is not among the sources; the spec
describes it as an immutable 2D point (x, y) that supports `+`. Coordinates are exact. -/
structure Coordinate where
  x : ℚ
  y : ℚ
  deriving DecidableEq

instance : Add Coordinate := ⟨fun a b => ⟨a.x + b.x, a.y + b.y⟩⟩

instance : Neg Coordinate := ⟨fun a => ⟨-a.x, -a.y⟩⟩

/-- The `Coordinate` member functions `rotate`, `scale` and `mirror`, which are not among
the sources: any three functions of the signatures used by `dimradial.cpp`. -/
structure CoordinateOps where
  rotate : Coordinate → Coordinate → ℚ → Coordinate
  scale : Coordinate → Coordinate → Coordinate → Coordinate
  mirror : Coordinate → Coordinate → Coordinate → Coordinate

/-! ## Entities -/

/-- The types that `dimradial.cpp` only passes through and whose declarations are not
among the sources: the two `TextConst` enumerations and the shared pointers to layer,
meta info and block. -/
structure EntityTypes where
  AttachmentPoint : Type
  LineSpacingStyle : Type
  Layer_CSPtr : Type
  MetaInfo_CSPtr : Type
  Block_CSPtr : Type

/-- The state of a `DimRadial` object: the `ID` and `CADEntity` bases (`id`, `layer`,
`metaInfo`, `block`), the `Dimension` base, and the two members `_definitionPoint2` and
`_leader`. -/
structure DimRadial (T : EntityTypes) where
  id : Nat
  definitionPoint : Coordinate
  middleOfText : Coordinate
  attachmentPoint : T.AttachmentPoint
  textAngle : ℚ
  lineSpacingFactor : ℚ
  lineSpacingStyle : T.LineSpacingStyle
  explicitValue : String
  definitionPoint2 : Coordinate
  leader : ℚ
  layer : T.Layer_CSPtr
  metaInfo : T.MetaInfo_CSPtr
  block : T.Block_CSPtr

/-- The id counter: the last id handed out. -/
abbrev IdCounter := Nat

/-- Modelled from the spec: the `ID` base class of `CADEntity` is not among the sources.
The spec says that a constructed entity gets a fresh id; a fresh id is the successor of
the last id handed out. Returns the id and the advanced counter. -/
def freshID (c : IdCounter) : Nat × IdCounter := (c + 1, c + 1)

namespace DimRadial

variable {T : EntityTypes}

/-- The constructor `DimRadial::DimRadial` with twelve arguments: the `CADEntity` base takes
layer, meta info and block and gets a fresh id, the `Dimension` base takes the seven
dimension arguments, `_leader` and `_definitionPoint2` take the rest. -/
def DimRadial (definitionPoint middleOfText : Coordinate)
    (attachmentPoint : T.AttachmentPoint) (angle lineSpacingFactor : ℚ)
    (lineSpacingStyle : T.LineSpacingStyle) (explicitValue : String)
    (definitionPoint2 : Coordinate) (leader : ℚ)
    (layer : T.Layer_CSPtr) (metaInfo : T.MetaInfo_CSPtr) (block : T.Block_CSPtr)
    (c : IdCounter) : LibreCAD.DimRadial T × IdCounter :=
  ({ id := (freshID c).1
     definitionPoint := definitionPoint
     middleOfText := middleOfText
     attachmentPoint := attachmentPoint
     textAngle := angle
     lineSpacingFactor := lineSpacingFactor
     lineSpacingStyle := lineSpacingStyle
     explicitValue := explicitValue
     definitionPoint2 := definitionPoint2
     leader := leader
     layer := layer
     metaInfo := metaInfo
     block := block }, (freshID c).2)

/-- The member `setID(id)` of the `ID` base. -/
def setID (e : LibreCAD.DimRadial T) (id : Nat) : LibreCAD.DimRadial T := { e with id := id }

/-- `DimRadial::move`. -/
def move (e : LibreCAD.DimRadial T) (offset : Coordinate) (c : IdCounter) :
    LibreCAD.DimRadial T × IdCounter :=
  let (newDimRadial, c1) := DimRadial (e.definitionPoint + offset)
    (e.middleOfText + offset)
    e.attachmentPoint
    e.textAngle
    e.lineSpacingFactor
    e.lineSpacingStyle
    e.explicitValue
    (e.definitionPoint2 + offset)
    e.leader
    e.layer e.metaInfo e.block c
  (newDimRadial.setID e.id, c1)

/-- `DimRadial::copy`: as `move`, without the `setID` call. -/
def copy (e : LibreCAD.DimRadial T) (offset : Coordinate) (c : IdCounter) :
    LibreCAD.DimRadial T × IdCounter :=
  let (newDimRadial, c1) := DimRadial (e.definitionPoint + offset)
    (e.middleOfText + offset)
    e.attachmentPoint
    e.textAngle
    e.lineSpacingFactor
    e.lineSpacingStyle
    e.explicitValue
    (e.definitionPoint2 + offset)
    e.leader
    e.layer e.metaInfo e.block c
  (newDimRadial, c1)

/-- `DimRadial::rotate`; `ops.rotate` is `Coordinate::rotate`. -/
def rotate (ops : CoordinateOps) (e : LibreCAD.DimRadial T) (rotation_center : Coordinate)
    (rotation_angle : ℚ) (c : IdCounter) : LibreCAD.DimRadial T × IdCounter :=
  let (newDimRadial, c1) := DimRadial (ops.rotate e.definitionPoint rotation_center rotation_angle)
    (ops.rotate e.middleOfText rotation_center rotation_angle)
    e.attachmentPoint
    e.textAngle
    e.lineSpacingFactor
    e.lineSpacingStyle
    e.explicitValue
    (ops.rotate e.definitionPoint2 rotation_center rotation_angle)
    e.leader
    e.layer e.metaInfo e.block c
  (newDimRadial.setID e.id, c1)

/-- `DimRadial::scale`; `ops.scale` is `Coordinate::scale`. -/
def scale (ops : CoordinateOps) (e : LibreCAD.DimRadial T) (scale_center scale_factor : Coordinate)
    (c : IdCounter) : LibreCAD.DimRadial T × IdCounter :=
  let (newDimRadial, c1) := DimRadial (ops.scale e.definitionPoint scale_center scale_factor)
    (ops.scale e.middleOfText scale_center scale_factor)
    e.attachmentPoint
    e.textAngle
    e.lineSpacingFactor
    e.lineSpacingStyle
    e.explicitValue
    (ops.scale e.definitionPoint2 scale_center scale_factor)
    e.leader
    e.layer e.metaInfo e.block c
  (newDimRadial.setID e.id, c1)

/-- `DimRadial::mirror`; `ops.mirror` is `Coordinate::mirror`. -/
def mirror (ops : CoordinateOps) (e : LibreCAD.DimRadial T) (axis1 axis2 : Coordinate)
    (c : IdCounter) : LibreCAD.DimRadial T × IdCounter :=
  let (newDimRadial, c1) := DimRadial (ops.mirror e.definitionPoint axis1 axis2)
    (ops.mirror e.middleOfText axis1 axis2)
    e.attachmentPoint
    e.textAngle
    e.lineSpacingFactor
    e.lineSpacingStyle
    e.explicitValue
    (ops.mirror e.definitionPoint2 axis1 axis2)
    e.leader
    e.layer e.metaInfo e.block c
  (newDimRadial.setID e.id, c1)

/-- `DimRadial::modify`. -/
def modify (e : LibreCAD.DimRadial T) (layer : T.Layer_CSPtr) (metaInfo : T.MetaInfo_CSPtr)
    (block : T.Block_CSPtr) (c : IdCounter) : LibreCAD.DimRadial T × IdCounter :=
  let (newDimRadial, c1) := DimRadial e.definitionPoint
    e.middleOfText
    e.attachmentPoint
    e.textAngle
    e.lineSpacingFactor
    e.lineSpacingStyle
    e.explicitValue
    e.definitionPoint2
    e.leader
    layer
    metaInfo block c
  (newDimRadial.setID e.id, c1)

/-- `DimRadial::dragPoints`. -/
def dragPoints (e : LibreCAD.DimRadial T) : StdMap Nat Coordinate :=
  let dragPoints : StdMap Nat Coordinate := StdMap.empty
  let dragPoints := dragPoints.set 0 e.definitionPoint
  let dragPoints := dragPoints.set 1 e.middleOfText
  let dragPoints := dragPoints.set 2 e.definitionPoint2
  dragPoints

/-- `DimRadial::setDragPoints`: the `try` block looks the three indices up with `at` and
builds the entity; the handler of `std::out_of_range` returns `shared_from_this()`, the
entity itself. The lookups precede the construction, so a caught exception leaves the id
counter as it was. -/
def setDragPoints (e : LibreCAD.DimRadial T) (dragPoints : StdMap Nat Coordinate)
    (c : IdCounter) : Except Exn (LibreCAD.DimRadial T × IdCounter) :=
  tryCatch
    (do
      let p0 ← dragPoints.atKey 0
      let p1 ← dragPoints.atKey 1
      let p2 ← dragPoints.atKey 2
      let (newEntity, c1) := DimRadial p0
        p1
        e.attachmentPoint
        e.textAngle
        e.lineSpacingFactor
        e.lineSpacingStyle
        e.explicitValue
        p2
        e.leader
        e.layer e.metaInfo e.block c
      pure (newEntity.setID e.id, c1))
    (fun ex =>
      match ex with
      | Exn.out_of_range => pure (e, c)
      | other => throw other)

end DimRadial

/-! ### Properties -/

/-- Modelled from the spec: the variant type `EntityProperty` is not among the sources. It
has the alternatives that the recognized properties need (coordinate, double, string);
`other` stands for any further alternative. -/
inductive EntityProperty where
  | coordinate (value : Coordinate)
  | double (value : ℚ)
  | string (value : String)
  | other (tag : Nat)
  deriving DecidableEq

/-- The type `PropertiesMap`: a `std::map` from property name to `EntityProperty`. -/
abbrev PropertiesMap := StdMap String EntityProperty

namespace EntityProperty

/-- The call `boost::get<lc::geo::Coordinate>(v)` on a variant reference: the held
coordinate, or `boost::bad_get`. -/
def getCoordinate : EntityProperty → Except Exn Coordinate
  | coordinate value => Except.ok value
  | _ => Except.error Exn.bad_get

/-- The call `boost::get<double>(v)`. -/
def getDouble : EntityProperty → Except Exn ℚ
  | double value => Except.ok value
  | _ => Except.error Exn.bad_get

/-- The call `boost::get<std::string>(v)`. -/
def getString : EntityProperty → Except Exn String
  | string value => Except.ok value
  | _ => Except.error Exn.bad_get

/-- The variant holds a coordinate. -/
def IsCoordinate (v : EntityProperty) : Prop := ∃ value, v = coordinate value

/-- The variant holds a double. -/
def IsDouble (v : EntityProperty) : Prop := ∃ value, v = double value

/-- The variant holds a string. -/
def IsString (v : EntityProperty) : Prop := ∃ value, v = string value

instance (v : EntityProperty) : Decidable v.IsCoordinate :=
  match v with
  | coordinate value => isTrue ⟨value, rfl⟩
  | double _ => isFalse (fun h => h.elim (fun _ hv => EntityProperty.noConfusion hv))
  | string _ => isFalse (fun h => h.elim (fun _ hv => EntityProperty.noConfusion hv))
  | other _ => isFalse (fun h => h.elim (fun _ hv => EntityProperty.noConfusion hv))

instance (v : EntityProperty) : Decidable v.IsDouble :=
  match v with
  | double value => isTrue ⟨value, rfl⟩
  | coordinate _ => isFalse (fun h => h.elim (fun _ hv => EntityProperty.noConfusion hv))
  | string _ => isFalse (fun h => h.elim (fun _ hv => EntityProperty.noConfusion hv))
  | other _ => isFalse (fun h => h.elim (fun _ hv => EntityProperty.noConfusion hv))

instance (v : EntityProperty) : Decidable v.IsString :=
  match v with
  | string value => isTrue ⟨value, rfl⟩
  | coordinate _ => isFalse (fun h => h.elim (fun _ hv => EntityProperty.noConfusion hv))
  | double _ => isFalse (fun h => h.elim (fun _ hv => EntityProperty.noConfusion hv))
  | other _ => isFalse (fun h => h.elim (fun _ hv => EntityProperty.noConfusion hv))

end EntityProperty

/-- The five output arguments of `Dimension::setDimensionProperties`. -/
structure DimensionProperties where
  definitionPointp : Coordinate
  middleOfTextp : Coordinate
  textAnglep : ℚ
  lineSpacingFactorp : ℚ
  explicitValuep : String

namespace Dimension

variable {T : EntityTypes}

/-- Modelled from the spec: one recognized key of a property edit. The value under `key`,
extracted at the declared type (a mismatch is an error), overwrites the default `current`
pulled from the entity state; without the key the default stays. -/
def propertyOr {α : Type} (propertiesMap : PropertiesMap) (key : String)
    (get : EntityProperty → Except Exn α) (current : α) : Except Exn α :=
  match propertiesMap.find? key with
  | some v => get v
  | none => pure current

/-- Modelled from the spec: `Dimension::setDimensionProperties` is not among the sources.
By the spec, recognized keys overwrite typed defaults pulled from the current entity
state, unknown keys are ignored, and a type mismatch is an error. The recognized keys of
the Dimension base are its five properties. -/
def setDimensionProperties (e : LibreCAD.DimRadial T) (propertiesMap : PropertiesMap) :
    Except Exn DimensionProperties := do
  let definitionPointp ←
    propertyOr propertiesMap "definitionPoint" EntityProperty.getCoordinate e.definitionPoint
  let middleOfTextp ←
    propertyOr propertiesMap "middleOfText" EntityProperty.getCoordinate e.middleOfText
  let textAnglep ← propertyOr propertiesMap "textAngle" EntityProperty.getDouble e.textAngle
  let lineSpacingFactorp ←
    propertyOr propertiesMap "lineSpacingFactor" EntityProperty.getDouble e.lineSpacingFactor
  let explicitValuep ←
    propertyOr propertiesMap "explicitValue" EntityProperty.getString e.explicitValue
  pure ⟨definitionPointp, middleOfTextp, textAnglep, lineSpacingFactorp, explicitValuep⟩

/-- Modelled from the spec: `Dimension::getDimensionProperties` is not among the sources.
It stores the five properties of the Dimension base in the map, under the names that
`setDimensionProperties` recognizes. -/
def getDimensionProperties (e : LibreCAD.DimRadial T) (propertyValues : PropertiesMap) :
    PropertiesMap :=
  let propertyValues :=
    propertyValues.set "definitionPoint" (EntityProperty.coordinate e.definitionPoint)
  let propertyValues :=
    propertyValues.set "middleOfText" (EntityProperty.coordinate e.middleOfText)
  let propertyValues := propertyValues.set "textAngle" (EntityProperty.double e.textAngle)
  let propertyValues :=
    propertyValues.set "lineSpacingFactor" (EntityProperty.double e.lineSpacingFactor)
  let propertyValues :=
    propertyValues.set "explicitValue" (EntityProperty.string e.explicitValue)
  propertyValues

end Dimension

namespace DimRadial

variable {T : EntityTypes}

/-- `DimRadial::availableProperties`; the argument is `Dimension::getDimensionProperties`. -/
def availableProperties
    (getDimensionProperties : LibreCAD.DimRadial T → PropertiesMap → PropertiesMap)
    (e : LibreCAD.DimRadial T) : PropertiesMap :=
  let propertyValues : PropertiesMap := StdMap.empty
  let propertyValues := getDimensionProperties e propertyValues
  let propertyValues :=
    propertyValues.set "definitionPoint2" (EntityProperty.coordinate e.definitionPoint2)
  let propertyValues := propertyValues.set "leader" (EntityProperty.double e.leader)
  propertyValues

/-- The body of the loop in `DimRadial::setProperties` for one map entry `iter`, on the
locals `definitionPoint2p` and `leaderp`. -/
def setPropertiesStep (iter : String × EntityProperty) (locals : Coordinate × ℚ) :
    Except Exn (Coordinate × ℚ) := do
  let definitionPoint2p ←
    if iter.1 = "definitionPoint2" then iter.2.getCoordinate else pure locals.1
  let leaderp ← if iter.1 = "leader" then iter.2.getDouble else pure locals.2
  pure (definitionPoint2p, leaderp)

/-- The loop of `DimRadial::setProperties` over the map entries. -/
def setPropertiesLoop : List (String × EntityProperty) → Coordinate × ℚ →
    Except Exn (Coordinate × ℚ)
  | [], locals => pure locals
  | iter :: rest, locals => do
    let locals1 ← setPropertiesStep iter locals
    setPropertiesLoop rest locals1

/-- `DimRadial::setProperties`; the first argument is `Dimension::setDimensionProperties`,
which fills the five dimension locals. No exception is caught. -/
def setProperties
    (setDimensionProperties :
      LibreCAD.DimRadial T → PropertiesMap → Except Exn DimensionProperties)
    (e : LibreCAD.DimRadial T) (propertiesMap : PropertiesMap) (c : IdCounter) :
    Except Exn (LibreCAD.DimRadial T × IdCounter) := do
  let definitionPoint2p := e.definitionPoint2
  let leaderp := e.leader
  let d ← setDimensionProperties e propertiesMap
  let (definitionPoint2p, leaderp) ←
    setPropertiesLoop propertiesMap.entries (definitionPoint2p, leaderp)
  let (newDimRad, c1) := DimRadial d.definitionPointp d.middleOfTextp e.attachmentPoint
    d.textAnglep d.lineSpacingFactorp
    e.lineSpacingStyle d.explicitValuep definitionPoint2p leaderp e.layer e.metaInfo e.block c
  pure (newDimRad.setID e.id, c1)

end DimRadial

/-! ### The property edit as the specification words it -/

/-- The value of a coordinate property after an edit: the coordinate stored in the map
entry when there is one, the current value otherwise. -/
def coordinateOr (stored : Option EntityProperty) (current : Coordinate) : Coordinate :=
  match stored with
  | some (EntityProperty.coordinate value) => value
  | _ => current

/-- The value of a double property after an edit. -/
def doubleOr (stored : Option EntityProperty) (current : ℚ) : ℚ :=
  match stored with
  | some (EntityProperty.double value) => value
  | _ => current

/-- The value of a string property after an edit. -/
def stringOr (stored : Option EntityProperty) (current : String) : String :=
  match stored with
  | some (EntityProperty.string value) => value
  | _ => current

/-- The property names that a DimRadial recognizes. -/
def recognizedProperties : List String :=
  ["definitionPoint", "middleOfText", "textAngle", "lineSpacingFactor", "explicitValue",
   "definitionPoint2", "leader"]

/-- The value stored under `key`, when there is one, satisfies `P`. -/
def HasType (m : PropertiesMap) (key : String) (P : EntityProperty → Prop) : Prop :=
  ∀ v, m.find? key = some v → P v

instance (m : PropertiesMap) (key : String) (P : EntityProperty → Prop) [DecidablePred P] :
    Decidable (HasType m key P) :=
  match h : m.find? key with
  | none => isTrue (fun _ hv => Option.noConfusion (h.symm.trans hv))
  | some w =>
    if hp : P w then
      isTrue (fun _ hv => Option.some.inj (h.symm.trans hv) ▸ hp)
    else
      isFalse (fun hall => hp (hall w h))

/-- A well-typed properties map: every recognized key that is present holds a value of
the type of its field. -/
def WellTyped (m : PropertiesMap) : Prop :=
  HasType m "definitionPoint" EntityProperty.IsCoordinate ∧
  HasType m "middleOfText" EntityProperty.IsCoordinate ∧
  HasType m "textAngle" EntityProperty.IsDouble ∧
  HasType m "lineSpacingFactor" EntityProperty.IsDouble ∧
  HasType m "explicitValue" EntityProperty.IsString ∧
  HasType m "definitionPoint2" EntityProperty.IsCoordinate ∧
  HasType m "leader" EntityProperty.IsDouble

instance (m : PropertiesMap) : Decidable (WellTyped m) := by
  unfold WellTyped
  infer_instance

/-! ## Document renderer: the painter cache -/

/-- The enumeration `PainterCacheType` (declared in the header, which is not among the
sources): the three purposes that `documentrenderer.cpp` uses. -/
inductive PainterCacheType where
  | VIEWER_BACKGROUND
  | VIEWER_DOCUMENT
  | VIEWER_DRAWING
  deriving DecidableEq, Repr

/-- One call of an injected painter functor: `create w h p` is a call of the create
functor with arguments `w`, `h` that returned `p`; `delete p` is a call of the delete
functor on `p`. -/
inductive FunctorCall (P : Type) where
  | create (width height : Nat) (result : P)
  | delete (painter : P)
  deriving DecidableEq, Repr

/-- What lies behind the injected functors: the state `world` of the graphics backend,
which the functors read and change, and the log of the functor calls made so far. -/
structure Backend (P W : Type) where
  world : W
  calls : List (FunctorCall P)

/-- The members of `DocumentRenderer` that `newDeviceSize` and `cachedPainter` use. `P` is
the type of painter handles (`LcPainter*`), `W` the state of the backend. -/
structure DocumentRenderer (P W : Type) where
  _deviceWidth : Nat
  _deviceHeight : Nat
  _cachedPainters : StdMap PainterCacheType P
  _createPainterFunctor : Nat → Nat → W → P × W
  _deletePainterFunctor : P → W → W

namespace DocumentRenderer

variable {P W : Type}

/-- The call `_createPainterFunctor(width, height)`, logged. -/
def callCreatePainterFunctor (r : DocumentRenderer P W) (width height : Nat)
    (b : Backend P W) : P × Backend P W :=
  let (painter, world1) := r._createPainterFunctor width height b.world
  (painter, { world := world1, calls := b.calls ++ [FunctorCall.create width height painter] })

/-- The call `_deletePainterFunctor(painter)`, logged. -/
def callDeletePainterFunctor (r : DocumentRenderer P W) (painter : P) (b : Backend P W) :
    Backend P W :=
  { world := r._deletePainterFunctor painter b.world
    calls := b.calls ++ [FunctorCall.delete painter] }

/-- `DocumentRenderer::newDeviceSize`. -/
def newDeviceSize (r : DocumentRenderer P W) (width height : Nat) (b : Backend P W) :
    DocumentRenderer P W × Backend P W :=
  if r._deviceWidth ≠ width ∨ r._deviceHeight ≠ height then
    let r1 := { r with _deviceWidth := width, _deviceHeight := height }
    let b1 := r1._cachedPainters.entries.foldl
      (fun b0 i => r1.callDeletePainterFunctor i.2 b0) b
    ({ r1 with _cachedPainters := StdMap.empty }, b1)
  else
    (r, b)

/-- `DocumentRenderer::cachedPainter`. The test `count(cacheType) == 0` is the `none` case
of the lookup (`StdMap.count_eq_zero_iff`); the value returned, `_cachedPainters[cacheType]`,
is the painter just stored in the `none` case and the painter found in the `some` case. -/
def cachedPainter (r : DocumentRenderer P W) (cacheType : PainterCacheType)
    (b : Backend P W) : P × DocumentRenderer P W × Backend P W :=
  match r._cachedPainters.find? cacheType with
  | none =>
    let (painter, b1) := r.callCreatePainterFunctor r._deviceWidth r._deviceHeight b
    (painter, { r with _cachedPainters := r._cachedPainters.set cacheType painter }, b1)
  | some painter => (painter, r, b)

end DocumentRenderer

/-! ## Document renderer: painters, view state, entity container -/

theorem keys_mapEntries {K V : Type} (f : V → V) (l : List (K × V)) :
    (l.map (fun i => (i.1, f i.2))).map Prod.fst = l.map Prod.fst := by
  induction l with
  | nil => rfl
  | cons hd tl ih => simp only [List.map_cons, ih]

/-- A loop over a map that calls a member function on every stored object: the keys stay,
every value is replaced by its state after the call. -/
def StdMap.mapValues {K V : Type} [DecidableEq K] (m : StdMap K V) (f : V → V) : StdMap K V :=
  ⟨m.entries.map (fun i => (i.1, f i.2)), (keys_mapEntries f m.entries).symm ▸ m.nodup⟩

/-- Modelled from the spec: `lc::geo::Area` is not among the sources. The spec describes
it as an axis-aligned region given by a min point and width/height, or by two corner
points; it is kept as its two extreme corners. -/
structure Area where
  minP : Coordinate
  maxP : Coordinate
  deriving DecidableEq

namespace Area

/-- The constructor `Area(corner, width, height)`: the region with min point `corner` and
the given width and height. -/
def ofSize (corner : Coordinate) (width height : ℚ) : Area :=
  ⟨corner, ⟨corner.x + width, corner.y + height⟩⟩

/-- The smallest region that contains both regions. -/
def merge (a b : Area) : Area :=
  ⟨⟨min a.minP.x b.minP.x, min a.minP.y b.minP.y⟩,
   ⟨max a.maxP.x b.maxP.x, max a.maxP.y b.maxP.y⟩⟩

end Area

/-- The transform of a painter, a map from user space to device space:
`device = scale * user + (tx, ty)`. -/
structure Transform where
  scale : ℚ
  tx : ℚ
  ty : ℚ
  deriving DecidableEq

/-- Modelled from the spec: the painter interface `LcPainter` is not among the sources.
The spec lists `scale(factor)`, `translate(dx, dy)`, `save()/restore()`,
`device_to_user(x, y)` and `device_to_user_distance(w, h)`; the transform is an affine
map from user space to device space on which `scale` and `translate` act in user space,
in the order called. A painter is its current transform and the stack of saved ones.
The cache of the renderer holds the painter objects themselves, one object per entry. -/
structure LcPainter where
  ctm : Transform
  saved : List Transform
  deriving DecidableEq

namespace LcPainter

/-- The getter `scale()`: the scale of the current transform. -/
def currentScale (p : LcPainter) : ℚ := p.ctm.scale

/-- The call `scale(s)`: user space is scaled by `s` before the current transform. -/
def scale (p : LcPainter) (s : ℚ) : LcPainter :=
  { p with ctm := { p.ctm with scale := p.ctm.scale * s } }

/-- The call `translate(x, y)`: user space is shifted by `(x, y)` before the current
transform. -/
def translate (p : LcPainter) (x y : ℚ) : LcPainter :=
  { p with ctm := { p.ctm with tx := p.ctm.tx + p.ctm.scale * x
                               ty := p.ctm.ty + p.ctm.scale * y } }

/-- The call `save()`. -/
def save (p : LcPainter) : LcPainter := { p with saved := p.ctm :: p.saved }

/-- The call `restore()`: back to the transform of the matching `save()`. -/
def restore (p : LcPainter) : LcPainter :=
  match p.saved with
  | [] => p
  | t :: rest => { ctm := t, saved := rest }

/-- The call `device_to_user(&x, &y)`: the user-space point that the transform maps to the
device point `(x, y)`. -/
def device_to_user (p : LcPainter) (x y : ℚ) : ℚ × ℚ :=
  ((x - p.ctm.tx) / p.ctm.scale, (y - p.ctm.ty) / p.ctm.scale)

/-- The call `device_to_user_distance(&w, &h)`. -/
def device_to_user_distance (p : LcPainter) (w h : ℚ) : ℚ × ℚ :=
  (w / p.ctm.scale, h / p.ctm.scale)

/-- The device point that the transform maps the user-space point `(x, y)` to. -/
def user_to_device (p : LcPainter) (x y : ℚ) : ℚ × ℚ :=
  (p.ctm.scale * x + p.ctm.tx, p.ctm.scale * y + p.ctm.ty)

end LcPainter

/-- The types behind the renderer whose declarations are not among the sources: the
entity classes `Line` and `Circle` with their bounding boxes, every other entity class
(`Other`, a `DimRadial` for one), and the draw items registered as background and
foreground items. -/
structure ViewerTypes where
  Line : Type
  Circle : Type
  Other : Type
  DrawItem : Type
  lineBoundingBox : Line → Area
  circleBoundingBox : Circle → Area

/-- An entity as `on_addEntityEvent` sees it: the dynamic type decides which
`dynamic_pointer_cast` succeeds. -/
inductive CADEntity (V : ViewerTypes) where
  | line (l : V.Line)
  | circle (c : V.Circle)
  | other (o : V.Other)

namespace CADEntity

variable {V : ViewerTypes}

/-- The cast `std::dynamic_pointer_cast<const lc::Line>(entity)`; `none` is `nullptr`. -/
def asLine : CADEntity V → Option V.Line
  | line l => some l
  | _ => none

/-- The cast `std::dynamic_pointer_cast<const lc::Circle>(entity)`. -/
def asCircle : CADEntity V → Option V.Circle
  | circle c => some c
  | _ => none

end CADEntity

/-- The payload of `lc::AddEntityEvent`. -/
structure AddEntityEvent (V : ViewerTypes) where
  entity : CADEntity V

/-- The drawable wrappers `LCVLine` and `LCVCircle`: the wrapped entity and the selection
flag of the `LCVDrawItem` base. -/
inductive LCVEntity (V : ViewerTypes) where
  | lcvLine (line : V.Line) (selected : Bool)
  | lcvCircle (circle : V.Circle) (selected : Bool)

namespace LCVEntity

variable {V : ViewerTypes}

/-- Modelled from the spec: the constructor `LCVLine(line)` is not among the sources; by
the spec the wrapper of a line is unselected by default. -/
def LCVLine (line : V.Line) : LCVEntity V := lcvLine line false

/-- Modelled from the spec: the constructor `LCVCircle(circle)` is not among the sources;
the wrapper is built like that of a line, unselected. -/
def LCVCircle (circle : V.Circle) : LCVEntity V := lcvCircle circle false

/-- The setter `selected(value)` of the `LCVDrawItem` base. -/
def selected (d : LCVEntity V) (value : Bool) : LCVEntity V :=
  match d with
  | lcvLine line _ => lcvLine line value
  | lcvCircle circ _ => lcvCircle circ value

/-- The getter `selected()`. -/
def isSelected : LCVEntity V → Bool
  | lcvLine _ sel => sel
  | lcvCircle _ sel => sel

/-- The bounding box of the wrapped entity. -/
def boundingBox : LCVEntity V → Area
  | lcvLine line _ => V.lineBoundingBox line
  | lcvCircle circ _ => V.circleBoundingBox circ

end LCVEntity

/-- Modelled from the spec: the quad-tree-backed `EntityContainer` is not among the
sources. By the spec it holds the drawables, `insert` adds one, `bounds()` is the aggregate
bounding box of all contained drawables, and `optimise()` rebuilds the spatial
partitioning; the partitioning is not represented, the contents are. -/
structure EntityContainer (V : ViewerTypes) where
  entities : List (LCVEntity V)

namespace EntityContainer

variable {V : ViewerTypes}

/-- The empty container. -/
def empty : EntityContainer V := ⟨[]⟩

/-- Modelled from the spec: `insert(drawable)`. -/
def insert (c : EntityContainer V) (d : LCVEntity V) : EntityContainer V :=
  ⟨c.entities ++ [d]⟩

/-- Modelled from the spec: `optimise()` leaves the contents as they are. -/
def optimise (c : EntityContainer V) : EntityContainer V := ⟨c.entities⟩

/-- Modelled from the spec: `allEntities()`. -/
def allEntities (c : EntityContainer V) : List (LCVEntity V) := c.entities

/-- Modelled from the spec: `bounds()`, the aggregate bounding box of the contained
drawables; `none` for the empty container, which has no bounding box. -/
def bounds (c : EntityContainer V) : Option Area :=
  match c.entities with
  | [] => none
  | d :: rest => some (rest.foldl (fun a e => a.merge e.boundingBox) d.boundingBox)

end EntityContainer

/-- A `DocumentRenderer` object: the cache members and, in addition, the zoom limits, the
visible user-space area, the background and foreground items and the entity container. -/
structure RendererState (V : ViewerTypes) (W : Type) extends DocumentRenderer LcPainter W where
  _zoomMin : ℚ
  _zoomMax : ℚ
  _visibleUserArea : Area
  _backgroundItems : List V.DrawItem
  _foregroundItems : List V.DrawItem
  _entityContainer : EntityContainer V

/-- A call made on a painter during `render`. -/
inductive PainterCall (V : ViewerTypes) where
  | clear (r g b : ℚ) (a : Option ℚ)
  | source_rgb (r g b : ℚ)
  | lineWidthCompensation (lw : ℚ)
  | drawItem (item : V.DrawItem) (visibleUserArea : Area)
  | drawEntity (item : LCVEntity V) (visibleUserArea : Area)

/-- What `render` does, in order: `onPainter q p c` is the call `c` on the painter `p`
obtained from `cachedPainter(q)`; `wPainter q p` is the call of the callback with `p`. -/
inductive RenderEvent (V : ViewerTypes) where
  | onPainter (purpose : PainterCacheType) (painter : LcPainter) (call : PainterCall V)
  | wPainter (purpose : PainterCacheType) (painter : LcPainter)

namespace RenderEvent

variable {V : ViewerTypes}

/-- The purpose of the surface that the event concerns. -/
def purpose : RenderEvent V → PainterCacheType
  | onPainter q _ _ => q
  | wPainter q _ => q

/-- The event is a `clear` call. -/
def isClear : RenderEvent V → Bool
  | onPainter _ _ (PainterCall.clear _ _ _ _) => true
  | _ => false

/-- The event is the `draw` call of an item. -/
def isDraw : RenderEvent V → Bool
  | onPainter _ _ (PainterCall.drawItem _ _) => true
  | onPainter _ _ (PainterCall.drawEntity _ _) => true
  | _ => false

/-- The event is a call of the callback. -/
def isWPainter : RenderEvent V → Bool
  | wPainter _ _ => true
  | _ => false

end RenderEvent

namespace RendererState

variable {V : ViewerTypes} {W : Type}

/-- The constructor `DocumentRenderer::DocumentRenderer`: it sets the zoom limits; the
containers start empty. The members it leaves unset (device size, visible area) and the
two functors, set right after construction, are arguments. -/
def DocumentRenderer (createPainterFunctor : Nat → Nat → W → LcPainter × W)
    (deletePainterFunctor : LcPainter → W → W) (deviceWidth deviceHeight : Nat)
    (visibleUserArea : Area) : RendererState V W :=
  { _deviceWidth := deviceWidth
    _deviceHeight := deviceHeight
    _cachedPainters := StdMap.empty
    _createPainterFunctor := createPainterFunctor
    _deletePainterFunctor := deletePainterFunctor
    _zoomMin := 0.05
    _zoomMax := 20.0
    _visibleUserArea := visibleUserArea
    _backgroundItems := []
    _foregroundItems := []
    _entityContainer := EntityContainer.empty }

/-- `DocumentRenderer::cachedPainter` on the whole object. -/
def cachedPainter (r : RendererState V W) (cacheType : PainterCacheType)
    (b : Backend LcPainter W) : LcPainter × RendererState V W × Backend LcPainter W :=
  ((r.toDocumentRenderer.cachedPainter cacheType b).1,
   { r with toDocumentRenderer := (r.toDocumentRenderer.cachedPainter cacheType b).2.1 },
   (r.toDocumentRenderer.cachedPainter cacheType b).2.2)

/-- `DocumentRenderer::newDeviceSize` on the whole object. -/
def newDeviceSize (r : RendererState V W) (width height : Nat) (b : Backend LcPainter W) :
    RendererState V W × Backend LcPainter W :=
  ({ r with toDocumentRenderer := (r.toDocumentRenderer.newDeviceSize width height b).1 },
   (r.toDocumentRenderer.newDeviceSize width height b).2)

/-- `DocumentRenderer::scrollTo`. The calls `save`, `scale`, `restore` go through the
pointer that `cachedPainter` returned, so the object in the cache is the one they change;
the loop then calls `translate` and `scale` on every cached painter. -/
def scrollTo (r : RendererState V W) (factor : ℚ) (deviceScrollX deviceScrollY : Nat)
    (b : Backend LcPainter W) : RendererState V W × Backend LcPainter W :=
  let (painter, r1, b1) := r.cachedPainter PainterCacheType.VIEWER_DOCUMENT b
  if (r1._zoomMax ≤ painter.currentScale ∧ factor > 1) ∨
      (r1._zoomMin ≥ painter.currentScale ∧ factor < 1) then
    (r1, b1)
  else
    let painter := painter.save
    let userScroll := painter.device_to_user deviceScrollX deviceScrollY
    let painter := painter.scale factor
    let userCenter := painter.device_to_user deviceScrollX deviceScrollY
    let painter := painter.restore
    let r2 := { r1 with
      _cachedPainters := r1._cachedPainters.set PainterCacheType.VIEWER_DOCUMENT painter }
    let r3 := { r2 with
      _cachedPainters := r2._cachedPainters.mapValues (fun p =>
        (p.translate (-userScroll.1 + userCenter.1) (-userScroll.2 + userCenter.2)).scale
          factor) }
    let (painter, r4, b4) := r3.cachedPainter PainterCacheType.VIEWER_DOCUMENT b1
    let xy := painter.device_to_user 0 0
    let wh := painter.device_to_user_distance r4._deviceWidth r4._deviceHeight
    ({ r4 with _visibleUserArea := Area.ofSize ⟨xy.1, xy.2⟩ wh.1 wh.2 }, b4)

/-- `DocumentRenderer::render`, with the calls it makes on the painters and the calls of
the callback `wPainter` returned in order. The draw calls of the items leave the transform
of the painter as it is. -/
def render (r : RendererState V W) (b : Backend LcPainter W) :
    RendererState V W × Backend LcPainter W × List (RenderEvent V) :=
  let (_, r1, b1) := r.cachedPainter PainterCacheType.VIEWER_DOCUMENT b
  let (painter, r2, b2) := r1.cachedPainter PainterCacheType.VIEWER_BACKGROUND b1
  let background :=
    (if r2._backgroundItems.length = 0 then
      [RenderEvent.onPainter PainterCacheType.VIEWER_BACKGROUND painter
        (PainterCall.clear 0 0.1 0 none)]
     else []) ++
    r2._backgroundItems.map (fun item =>
      RenderEvent.onPainter PainterCacheType.VIEWER_BACKGROUND painter
        (PainterCall.drawItem item r2._visibleUserArea)) ++
    [RenderEvent.wPainter PainterCacheType.VIEWER_BACKGROUND painter]
  let (painter, r3, b3) := r2.cachedPainter PainterCacheType.VIEWER_DOCUMENT b2
  let data := r3._entityContainer.allEntities
  let document :=
    [RenderEvent.onPainter PainterCacheType.VIEWER_DOCUMENT painter
       (PainterCall.clear 1 1 1 (some 0)),
     RenderEvent.onPainter PainterCacheType.VIEWER_DOCUMENT painter
       (PainterCall.source_rgb 1 1 1),
     RenderEvent.onPainter PainterCacheType.VIEWER_DOCUMENT painter
       (PainterCall.lineWidthCompensation 0.5)] ++
    data.map (fun item =>
      RenderEvent.onPainter PainterCacheType.VIEWER_DOCUMENT painter
        (PainterCall.drawEntity item r3._visibleUserArea)) ++
    [RenderEvent.wPainter PainterCacheType.VIEWER_DOCUMENT painter]
  let (painter, r4, b4) := r3.cachedPainter PainterCacheType.VIEWER_DRAWING b3
  let foreground :=
    [RenderEvent.onPainter PainterCacheType.VIEWER_DRAWING painter
       (PainterCall.clear 1 1 1 (some 0.0))] ++
    r4._foregroundItems.map (fun item =>
      RenderEvent.onPainter PainterCacheType.VIEWER_DRAWING painter
        (PainterCall.drawItem item r4._visibleUserArea)) ++
    [RenderEvent.wPainter PainterCacheType.VIEWER_DRAWING painter]
  (r4, b4, background ++ document ++ foreground)

/-- `DocumentRenderer::addBackgroundItem`. -/
def addBackgroundItem (r : RendererState V W) (item : V.DrawItem) : RendererState V W :=
  { r with _backgroundItems := r._backgroundItems ++ [item] }

/-- `DocumentRenderer::addForegroundItem`. -/
def addForegroundItem (r : RendererState V W) (item : V.DrawItem) : RendererState V W :=
  { r with _foregroundItems := r._foregroundItems ++ [item] }

/-- `DocumentRenderer::on_commitProcessEvent`. -/
def on_commitProcessEvent (r : RendererState V W) : RendererState V W :=
  { r with _entityContainer := r._entityContainer.optimise }

/-- `DocumentRenderer::on_addEntityEvent`: a line gets an `LCVLine`, a circle an `LCVCircle`
that is set selected; for any other entity the function falls off its end. -/
def on_addEntityEvent (r : RendererState V W) (event : AddEntityEvent V) :
    RendererState V W :=
  match event.entity.asLine with
  | some line =>
    { r with _entityContainer := r._entityContainer.insert (LCVEntity.LCVLine line) }
  | none =>
    match event.entity.asCircle with
    | some circ =>
      let newCircle := LCVEntity.LCVCircle circ
      let newCircle := newCircle.selected true
      { r with _entityContainer := r._entityContainer.insert newCircle }
    | none => r

/-- `DocumentRenderer::bounds`. -/
def bounds (r : RendererState V W) : Option Area := r._entityContainer.bounds

end RendererState

/-- A call of one of the member functions `cachedPainter`, `scrollTo`, `render`,
`newDeviceSize`. -/
inductive RendererCall where
  | cachedPainter (cacheType : PainterCacheType)
  | scrollTo (factor : ℚ) (deviceScrollX deviceScrollY : Nat)
  | render
  | newDeviceSize (width height : Nat)

namespace RendererState

variable {V : ViewerTypes} {W : Type}

/-- The state of renderer and backend after one call. -/
def call (s : RendererState V W × Backend LcPainter W) :
    RendererCall → RendererState V W × Backend LcPainter W
  | RendererCall.cachedPainter cacheType => (s.1.cachedPainter cacheType s.2).2
  | RendererCall.scrollTo factor x y => s.1.scrollTo factor x y s.2
  | RendererCall.render => ((s.1.render s.2).1, (s.1.render s.2).2.1)
  | RendererCall.newDeviceSize width height => s.1.newDeviceSize width height s.2

/-- The state of renderer and backend after a sequence of calls. -/
def calls (s : RendererState V W × Backend LcPainter W) (l : List RendererCall) :
    RendererState V W × Backend LcPainter W :=
  l.foldl call s

/-- Every surface in the cache has the scale and translation of the document surface. -/
def Synchronized (r : RendererState V W) : Prop :=
  ∀ d, r._cachedPainters.find? PainterCacheType.VIEWER_DOCUMENT = some d →
    ∀ p ∈ r._cachedPainters.values, p.ctm = d.ctm

instance (r : RendererState V W) : Decidable r.Synchronized :=
  match h : r._cachedPainters.find? PainterCacheType.VIEWER_DOCUMENT with
  | none => isTrue (fun _ hd => Option.noConfusion (h.symm.trans hd))
  | some d0 =>
    if hp : ∀ p ∈ r._cachedPainters.values, p.ctm = d0.ctm then
      isTrue (fun _ hd => Option.some.inj (h.symm.trans hd) ▸ hp)
    else
      isFalse (fun hall => hp (hall d0 h))

/-- The cache holds a surface for each of the three purposes. -/
def AllCached (r : RendererState V W) : Prop :=
  (r._cachedPainters.find? PainterCacheType.VIEWER_BACKGROUND).isSome = true ∧
  (r._cachedPainters.find? PainterCacheType.VIEWER_DOCUMENT).isSome = true ∧
  (r._cachedPainters.find? PainterCacheType.VIEWER_DRAWING).isSome = true

instance (r : RendererState V W) : Decidable r.AllCached := by
  unfold AllCached
  infer_instance

end RendererState

/-- In the sequence of events, every draw call on the surface of purpose `q` comes after a
`clear` call on that surface; `cleared` tells whether a `clear` has been seen already. -/
def clearedBeforeDraws {V : ViewerTypes} (q : PainterCacheType) :
    Bool → List (RenderEvent V) → Bool
  | _, [] => true
  | cleared, e :: rest =>
    if e.purpose = q then
      if e.isClear then clearedBeforeDraws q true rest
      else if e.isDraw then cleared && clearedBeforeDraws q cleared rest
      else clearedBeforeDraws q cleared rest
    else clearedBeforeDraws q cleared rest

/-! ### The scroll as the specification words it -/

/-- What the loop of `scrollTo` does to a cached painter `q`: `translate` by the difference
of the user-space points that the document painter `p` has under the device point before
and after scaling, then `scale`. -/
def scrolled (p : LcPainter) (factor : ℚ) (x y : Nat) (q : LcPainter) : LcPainter :=
  (q.translate
    (-(p.device_to_user x y).1 + ((p.scale factor).device_to_user x y).1)
    (-(p.device_to_user x y).2 + ((p.scale factor).device_to_user x y).2)).scale factor

/-- The visible user-space area that `scrollTo` computes from the document painter `p` and
the device size. -/
def visibleArea (p : LcPainter) (deviceWidth deviceHeight : Nat) : Area :=
  Area.ofSize ⟨(p.device_to_user 0 0).1, (p.device_to_user 0 0).2⟩
    (p.device_to_user_distance deviceWidth deviceHeight).1
    (p.device_to_user_distance deviceWidth deviceHeight).2

/-! ## Bounding box of a radial dimension -/

/-- Modelled from the spec: the two-corner constructor `Area(cornerA, cornerB)` of
`lc::geo::Area` is not among the sources. By the spec an area is an axis-aligned region
that two corner points define: the region they span, from the componentwise minimum to the
componentwise maximum of the two points. -/
def Area.ofCorners (a b : Coordinate) : Area :=
  ⟨⟨min a.x b.x, min a.y b.y⟩, ⟨max a.x b.x, max a.y b.y⟩⟩

/-- The region moved by an offset. -/
def Area.translate (a : Area) (offset : Coordinate) : Area :=
  ⟨a.minP + offset, a.maxP + offset⟩

/-- `DimRadial::boundingBox`. -/
def DimRadial.boundingBox {T : EntityTypes} (e : LibreCAD.DimRadial T) : Area :=
  Area.ofCorners e.middleOfText e.definitionPoint2

/-! ## Concrete inputs -/

/-- Entity types for the concrete inputs: enumeration values and pointers are numbers. -/
abbrev ExampleTypes : EntityTypes := ⟨Nat, Nat, Nat, Nat, Nat⟩

/-- A radial dimension with id 3. -/
def exampleDimRadial : DimRadial ExampleTypes :=
  { id := 3
    definitionPoint := ⟨1, 2⟩
    middleOfText := ⟨3, 4⟩
    attachmentPoint := 0
    textAngle := 0
    lineSpacingFactor := 1
    lineSpacingStyle := 0
    explicitValue := "R5"
    definitionPoint2 := ⟨5, 6⟩
    leader := 2
    layer := 0
    metaInfo := 0
    block := 0 }

/-- A drag-point map that lacks index 1. -/
def exampleDragPoints : StdMap Nat Coordinate := ⟨[(0, ⟨9, 9⟩), (2, ⟨8, 8⟩)], by decide⟩

/-- A properties map that stores a string under "leader". -/
def exampleMistypedProperties : PropertiesMap :=
  ⟨[("leader", EntityProperty.string "long")], by decide⟩

/-- A well-typed properties map with the recognized key "leader" and one other key. -/
def exampleProperties : PropertiesMap :=
  ⟨[("leader", EntityProperty.double 9), ("colour", EntityProperty.other 1)], by decide⟩

/-- A renderer for an 800 x 600 device that caches a background surface 11 and a document
surface 12. The backend state is the number of the next surface; the create functor
returns it, the delete functor leaves the state as it is. -/
def exampleRenderer : DocumentRenderer Nat Nat :=
  { _deviceWidth := 800
    _deviceHeight := 600
    _cachedPainters :=
      ⟨[(PainterCacheType.VIEWER_BACKGROUND, 11), (PainterCacheType.VIEWER_DOCUMENT, 12)],
        by decide⟩
    _createPainterFunctor := fun _ _ w => (w, w + 1)
    _deletePainterFunctor := fun _ w => w }

/-- Viewer types for the concrete inputs: lines, circles and draw items are numbers, the
other entities are radial dimensions; line `n` spans (0,0) to (n,n), circle `n` has
radius `n` around the origin. -/
abbrev ExampleViewerTypes : ViewerTypes :=
  ⟨Nat, Nat, DimRadial ExampleTypes, Nat,
   fun n => ⟨⟨0, 0⟩, ⟨n, n⟩⟩, fun n => ⟨⟨-n, -n⟩, ⟨n, n⟩⟩⟩

/-- A painter with the identity transform and nothing saved. -/
def identityPainter : LcPainter := ⟨⟨1, 0, 0⟩, []⟩

/-- A backend that has created nothing yet. -/
def exampleBackend : Backend LcPainter Nat := ⟨0, []⟩

/-- A freshly constructed renderer for an 800 x 600 device, with a create functor that
returns painters with the identity transform. -/
def exampleFreshView : RendererState ExampleViewerTypes Nat :=
  RendererState.DocumentRenderer (fun _ _ w => (identityPainter, w + 1)) (fun _ w => w)
    800 600 ⟨⟨0, 0⟩, ⟨800, 600⟩⟩

/-- The renderer `exampleFreshView` after the document surface has been created. -/
def exampleView : RendererState ExampleViewerTypes Nat :=
  (exampleFreshView.cachedPainter PainterCacheType.VIEWER_DOCUMENT exampleBackend).2.1

/-- The renderer `exampleFreshView` after a render pass: all three surfaces are cached. -/
def exampleFullView : RendererState ExampleViewerTypes Nat :=
  (exampleFreshView.render exampleBackend).1

/-- The renderer `exampleView` with the document surface zoomed to the upper limit 20. -/
def exampleZoomedView : RendererState ExampleViewerTypes Nat :=
  { exampleView with
    _cachedPainters := ⟨[(PainterCacheType.VIEWER_DOCUMENT, ⟨⟨20, 0, 0⟩, []⟩)], by decide⟩ }

/-- A drag-point map with the indices 0, 1, 2 and a further index 5. -/
def exampleFullDragPoints : StdMap Nat Coordinate :=
  ⟨[(0, ⟨9, 9⟩), (1, ⟨7, 7⟩), (2, ⟨8, 8⟩), (5, ⟨1, 1⟩)], by decide⟩

/-! ## Theorems -/

theorem lookupEntries_eq_none {K V : Type} [DecidableEq K] (k : K) (l : List (K × V))
    (h : k ∉ l.map Prod.fst) : lookupEntries k l = none := by
  induction l with
  | nil => rfl
  | cons hd tl ih =>
    obtain ⟨k1, v1⟩ := hd
    simp only [List.map_cons, List.mem_cons, not_or] at h
    simp only [lookupEntries, if_neg (Ne.symm h.1)]
    exact ih h.2

theorem mem_of_lookupEntries {K V : Type} [DecidableEq K] (k : K) (v : V) (l : List (K × V))
    (h : lookupEntries k l = some v) : (k, v) ∈ l := by
  induction l with
  | nil => simp [lookupEntries] at h
  | cons hd tl ih =>
    obtain ⟨k1, v1⟩ := hd
    by_cases hk : k1 = k
    · simp only [lookupEntries, if_pos hk, Option.some.injEq] at h
      simp [hk, h]
    · simp only [lookupEntries, if_neg hk] at h
      exact List.mem_cons_of_mem _ (ih h)

theorem lookupEntries_setEntries {K V : Type} [DecidableEq K] (k : K) (v : V)
    (l : List (K × V)) (a : K) :
    lookupEntries a (setEntries k v l) = if a = k then some v else lookupEntries a l := by
  induction l with
  | nil =>
    by_cases h : a = k
    · simp [setEntries, lookupEntries, h]
    · simp [setEntries, lookupEntries, h, Ne.symm h]
  | cons hd tl ih =>
    obtain ⟨k1, v1⟩ := hd
    by_cases h1 : k1 = k
    · subst h1
      by_cases h : a = k1
      · simp [setEntries, lookupEntries, h]
      · simp [setEntries, lookupEntries, h, Ne.symm h]
    · by_cases h : a = k
      · subst h
        simp [setEntries, lookupEntries, h1, ih]
      · by_cases h2 : k1 = a
        · simp [setEntries, lookupEntries, h1, h, h2]
        · simp [setEntries, lookupEntries, h1, h, h2, ih]

theorem StdMap.find?_set {K V : Type} [DecidableEq K] (m : StdMap K V) (k : K) (v : V)
    (a : K) : (m.set k v).find? a = if a = k then some v else m.find? a :=
  lookupEntries_setEntries k v m.entries a

theorem StdMap.count_eq_zero_iff {K V : Type} [DecidableEq K] (m : StdMap K V) (k : K) :
    m.count k = 0 ↔ m.find? k = none := by
  unfold StdMap.count
  cases m.find? k <;> simp

theorem StdMap.find?_empty {K V : Type} [DecidableEq K] (a : K) :
    (StdMap.empty : StdMap K V).find? a = none := rfl

theorem Coordinate.add_def (a b : Coordinate) : a + b = ⟨a.x + b.x, a.y + b.y⟩ := rfl

theorem Coordinate.neg_def (a : Coordinate) : -a = ⟨-a.x, -a.y⟩ := rfl

/-- C1: moving a DimRadial by an offset and then by the negated offset gives back the
entity: every field and the id are those of the original. -/
theorem DimRadial.move_move_neg {T : EntityTypes} (e : LibreCAD.DimRadial T) (o : Coordinate)
    (c : IdCounter) :
    ((e.move o c).1.move (-o) (e.move o c).2).1 = e := by
  obtain ⟨id, dp, mt, ap, ta, lsf, lss, ev, dp2, ld, ly, mi, bl⟩ := e
  simp [DimRadial.move, DimRadial.DimRadial, DimRadial.setID, Coordinate.add_def,
    Coordinate.neg_def]

/-- C2: at every counter state at which the id of E has already been handed out, the id of
E.copy(O) differs from the id of E, for every offset O and so for O = (0,0) too; and
E.copy(O) agrees with E.move(O) in every field other than the id. -/
theorem DimRadial.copy_id_ne_and_geometry {T : EntityTypes} (e : LibreCAD.DimRadial T)
    (o : Coordinate) (c : IdCounter) (hid : e.id ≤ c) :
    (e.copy o c).1.id ≠ e.id ∧
    (e.copy (⟨0, 0⟩ : Coordinate) c).1.id ≠ e.id ∧
    (e.copy o c).1.setID e.id = (e.move o c).1 := by
  refine ⟨?_, ?_, ?_⟩
  · simp only [DimRadial.copy, DimRadial.DimRadial, freshID]
    omega
  · simp only [DimRadial.copy, DimRadial.DimRadial, freshID]
    omega
  · simp [DimRadial.copy, DimRadial.move, DimRadial.DimRadial, DimRadial.setID]

/-- Witness of C2: the entity with id 3 at counter 7, copied with offset (0,0). -/
theorem DimRadial.copy_id_ne_and_geometry_witness :
    exampleDimRadial.id ≤ 7 ∧
    (exampleDimRadial.copy ⟨0, 0⟩ 7).1.id ≠ exampleDimRadial.id ∧
    (exampleDimRadial.copy (⟨0, 0⟩ : Coordinate) 7).1.id ≠ exampleDimRadial.id ∧
    (exampleDimRadial.copy ⟨0, 0⟩ 7).1.setID exampleDimRadial.id =
      (exampleDimRadial.move ⟨0, 0⟩ 7).1 :=
  ⟨by decide, DimRadial.copy_id_ne_and_geometry exampleDimRadial ⟨0, 0⟩ 7 (by decide)⟩

/-- C3: when the drag-point map lacks one of the indices 0, 1, 2, setDragPoints raises no
error and returns the entity itself: same id, same value in every field (and no id is
drawn from the counter). -/
theorem DimRadial.setDragPoints_missing_index {T : EntityTypes} (e : LibreCAD.DimRadial T)
    (m : StdMap Nat Coordinate) (c : IdCounter)
    (hm : m.find? 0 = none ∨ m.find? 1 = none ∨ m.find? 2 = none) :
    e.setDragPoints m c = Except.ok (e, c) := by
  unfold DimRadial.setDragPoints
  cases h0 : m.find? 0 with
  | none => simp only [StdMap.atKey, h0]; rfl
  | some p0 =>
    cases h1 : m.find? 1 with
    | none => simp only [StdMap.atKey, h0, h1]; rfl
    | some p1 =>
      cases h2 : m.find? 2 with
      | none => simp only [StdMap.atKey, h0, h1, h2]; rfl
      | some p2 => simp [h0, h1, h2] at hm

/-- Witness of C3: a map holding the indices 0 and 2 only. -/
theorem DimRadial.setDragPoints_missing_index_witness :
    (exampleDragPoints.find? 0 = none ∨ exampleDragPoints.find? 1 = none ∨
      exampleDragPoints.find? 2 = none) ∧
    exampleDimRadial.setDragPoints exampleDragPoints 7 = Except.ok (exampleDimRadial, 7) :=
  ⟨Or.inr (Or.inl (by decide)),
   DimRadial.setDragPoints_missing_index exampleDimRadial exampleDragPoints 7
     (Or.inr (Or.inl (by decide)))⟩

/-- C4: E.move(O) has definitionPoint, middleOfText and definitionPoint2 equal to those of
E plus O, every other field equal to that of E, and the id of E. -/
theorem DimRadial.move_fields {T : EntityTypes} (e : LibreCAD.DimRadial T) (o : Coordinate)
    (c : IdCounter) :
    (e.move o c).1.definitionPoint = e.definitionPoint + o ∧
    (e.move o c).1.middleOfText = e.middleOfText + o ∧
    (e.move o c).1.definitionPoint2 = e.definitionPoint2 + o ∧
    (e.move o c).1.attachmentPoint = e.attachmentPoint ∧
    (e.move o c).1.textAngle = e.textAngle ∧
    (e.move o c).1.lineSpacingFactor = e.lineSpacingFactor ∧
    (e.move o c).1.lineSpacingStyle = e.lineSpacingStyle ∧
    (e.move o c).1.explicitValue = e.explicitValue ∧
    (e.move o c).1.leader = e.leader ∧
    (e.move o c).1.layer = e.layer ∧
    (e.move o c).1.metaInfo = e.metaInfo ∧
    (e.move o c).1.block = e.block ∧
    (e.move o c).1.id = e.id := by
  simp [DimRadial.move, DimRadial.DimRadial, DimRadial.setID]

/-- C5: rotate, scale and mirror each apply the Coordinate operation of the same name, with
the same arguments, to definitionPoint, middleOfText and definitionPoint2, and keep every
other field (textAngle and leader among them) and the id. -/
theorem DimRadial.rotate_scale_mirror_fields {T : EntityTypes} (ops : CoordinateOps)
    (e : LibreCAD.DimRadial T) (p q : Coordinate) (angle : ℚ) (c : IdCounter) :
    (e.rotate ops p angle c).1 =
      { e with definitionPoint := ops.rotate e.definitionPoint p angle
               middleOfText := ops.rotate e.middleOfText p angle
               definitionPoint2 := ops.rotate e.definitionPoint2 p angle } ∧
    (e.scale ops p q c).1 =
      { e with definitionPoint := ops.scale e.definitionPoint p q
               middleOfText := ops.scale e.middleOfText p q
               definitionPoint2 := ops.scale e.definitionPoint2 p q } ∧
    (e.mirror ops p q c).1 =
      { e with definitionPoint := ops.mirror e.definitionPoint p q
               middleOfText := ops.mirror e.middleOfText p q
               definitionPoint2 := ops.mirror e.definitionPoint2 p q } := by
  simp [DimRadial.rotate, DimRadial.scale, DimRadial.mirror, DimRadial.DimRadial,
    DimRadial.setID]

/-- C6: E.modify(layer, metaInfo, block) has the given layer, metaInfo and block, the
geometry and text fields of E, and the id of E. -/
theorem DimRadial.modify_fields {T : EntityTypes} (e : LibreCAD.DimRadial T)
    (layer : T.Layer_CSPtr) (metaInfo : T.MetaInfo_CSPtr) (block : T.Block_CSPtr)
    (c : IdCounter) :
    (e.modify layer metaInfo block c).1 =
      { e with layer := layer, metaInfo := metaInfo, block := block } := by
  simp [DimRadial.modify, DimRadial.DimRadial, DimRadial.setID]

/-- The loop body fails on an entry whose key is "definitionPoint2" and whose value is not
a coordinate, and on an entry whose key is "leader" and whose value is not a double. -/
theorem DimRadial.setPropertiesStep_mismatch (iter : String × EntityProperty)
    (locals : Coordinate × ℚ)
    (h : (iter.1 = "definitionPoint2" ∧ ¬ iter.2.IsCoordinate) ∨
      (iter.1 = "leader" ∧ ¬ iter.2.IsDouble)) :
    DimRadial.setPropertiesStep iter locals = Except.error Exn.bad_get := by
  obtain ⟨k, v⟩ := iter
  rcases h with ⟨hk, hv⟩ | ⟨hk, hv⟩
  · simp only at hk hv
    subst hk
    cases v with
    | coordinate value => exact absurd ⟨value, rfl⟩ hv
    | double value => rfl
    | string value => rfl
    | other tag => rfl
  · simp only at hk hv
    subst hk
    cases v with
    | double value => exact absurd ⟨value, rfl⟩ hv
    | coordinate value => rfl
    | string value => rfl
    | other tag => rfl

theorem DimRadial.setPropertiesLoop_mismatch (entries : List (String × EntityProperty))
    (iter : String × EntityProperty) (hmem : iter ∈ entries)
    (h : (iter.1 = "definitionPoint2" ∧ ¬ iter.2.IsCoordinate) ∨
      (iter.1 = "leader" ∧ ¬ iter.2.IsDouble))
    (locals : Coordinate × ℚ) :
    ∃ ex, DimRadial.setPropertiesLoop entries locals = Except.error ex := by
  induction entries generalizing locals with
  | nil => simp at hmem
  | cons hd tl ih =>
    rcases List.mem_cons.mp hmem with heq | htl
    · subst heq
      refine ⟨Exn.bad_get, ?_⟩
      simp only [DimRadial.setPropertiesLoop, DimRadial.setPropertiesStep_mismatch iter locals h]
      rfl
    · cases hs : DimRadial.setPropertiesStep hd locals with
      | error ex =>
        refine ⟨ex, ?_⟩
        simp only [DimRadial.setPropertiesLoop, hs]
        rfl
      | ok locals1 =>
        obtain ⟨ex, hex⟩ := ih htl locals1
        refine ⟨ex, ?_⟩
        simp only [DimRadial.setPropertiesLoop, hs]
        exact hex

/-- C7: when the value stored under "definitionPoint2" is not a coordinate, or the value
stored under "leader" is not a double, setProperties ends in an exception that reaches the
caller and returns no entity, whatever Dimension::setDimensionProperties does. -/
theorem DimRadial.setProperties_type_mismatch {T : EntityTypes}
    (setDimensionProperties :
      LibreCAD.DimRadial T → PropertiesMap → Except Exn DimensionProperties)
    (e : LibreCAD.DimRadial T) (m : PropertiesMap) (c : IdCounter)
    (h : (∃ v, m.find? "definitionPoint2" = some v ∧ ¬ v.IsCoordinate) ∨
      (∃ v, m.find? "leader" = some v ∧ ¬ v.IsDouble)) :
    ∃ ex, e.setProperties setDimensionProperties m c = Except.error ex := by
  have hloop : ∀ locals, ∃ ex, DimRadial.setPropertiesLoop m.entries locals = Except.error ex := by
    intro locals
    rcases h with ⟨v, hv, hbad⟩ | ⟨v, hv, hbad⟩
    · exact DimRadial.setPropertiesLoop_mismatch m.entries ("definitionPoint2", v)
        (mem_of_lookupEntries _ _ _ hv) (Or.inl ⟨rfl, hbad⟩) locals
    · exact DimRadial.setPropertiesLoop_mismatch m.entries ("leader", v)
        (mem_of_lookupEntries _ _ _ hv) (Or.inr ⟨rfl, hbad⟩) locals
  unfold DimRadial.setProperties
  cases hd : setDimensionProperties e m with
  | error ex => exact ⟨ex, rfl⟩
  | ok d =>
    obtain ⟨ex, hex⟩ := hloop (e.definitionPoint2, e.leader)
    refine ⟨ex, ?_⟩
    simp only [hex]
    rfl

/-- Witness of C7: a map that stores a string under "leader". -/
theorem DimRadial.setProperties_type_mismatch_witness :
    ((∃ v, exampleMistypedProperties.find? "definitionPoint2" = some v ∧ ¬ v.IsCoordinate) ∨
      (∃ v, exampleMistypedProperties.find? "leader" = some v ∧ ¬ v.IsDouble)) ∧
    ∃ ex, exampleDimRadial.setProperties Dimension.setDimensionProperties
      exampleMistypedProperties 7 = Except.error ex :=
  ⟨Or.inr ⟨EntityProperty.string "long", by decide, by decide⟩,
   DimRadial.setProperties_type_mismatch Dimension.setDimensionProperties exampleDimRadial
     exampleMistypedProperties 7 (Or.inr ⟨EntityProperty.string "long", by decide, by decide⟩)⟩

theorem DimRadial.setPropertiesLoop_wellTyped (entries : List (String × EntityProperty))
    (hnd : (entries.map Prod.fst).Nodup)
    (h1 : ∀ v, lookupEntries "definitionPoint2" entries = some v → v.IsCoordinate)
    (h2 : ∀ v, lookupEntries "leader" entries = some v → v.IsDouble)
    (locals : Coordinate × ℚ) :
    DimRadial.setPropertiesLoop entries locals =
      Except.ok (coordinateOr (lookupEntries "definitionPoint2" entries) locals.1,
        doubleOr (lookupEntries "leader" entries) locals.2) := by
  induction entries generalizing locals with
  | nil => rfl
  | cons hd tl ih =>
    obtain ⟨k, v⟩ := hd
    simp only [List.map_cons, List.nodup_cons] at hnd
    by_cases hk1 : k = "definitionPoint2"
    · subst hk1
      obtain ⟨value, rfl⟩ := h1 v (by simp [lookupEntries])
      have hnone := lookupEntries_eq_none (V := EntityProperty) "definitionPoint2" tl hnd.1
      have hstep : DimRadial.setPropertiesStep
          ("definitionPoint2", EntityProperty.coordinate value) locals =
          Except.ok (value, locals.2) := rfl
      have hl : lookupEntries "leader"
          (("definitionPoint2", EntityProperty.coordinate value) :: tl) =
          lookupEntries "leader" tl := by
        simp [lookupEntries]
      rw [hl] at h2 ⊢
      simp only [DimRadial.setPropertiesLoop, hstep]
      have := ih hnd.2 (by simp [hnone]) h2 (value, locals.2)
      simp only [hnone] at this
      simpa [lookupEntries, coordinateOr, bind, Except.bind] using this
    · by_cases hk2 : k = "leader"
      · subst hk2
        obtain ⟨value, rfl⟩ := h2 v (by simp [lookupEntries])
        have hnone := lookupEntries_eq_none (V := EntityProperty) "leader" tl hnd.1
        have hstep : DimRadial.setPropertiesStep
            ("leader", EntityProperty.double value) locals =
            Except.ok (locals.1, value) := rfl
        have hl : lookupEntries "definitionPoint2"
            (("leader", EntityProperty.double value) :: tl) =
            lookupEntries "definitionPoint2" tl := by
          simp [lookupEntries]
        rw [hl] at h1 ⊢
        simp only [DimRadial.setPropertiesLoop, hstep]
        have := ih hnd.2 h1 (by simp [hnone]) (locals.1, value)
        simp only [hnone] at this
        simpa [lookupEntries, doubleOr, bind, Except.bind] using this
      · have hstep : DimRadial.setPropertiesStep (k, v) locals = Except.ok locals := by
          simp [DimRadial.setPropertiesStep, hk1, hk2, bind, Except.bind, pure, Except.pure]
        have hl1 : lookupEntries "definitionPoint2" ((k, v) :: tl) =
            lookupEntries "definitionPoint2" tl := by
          simp [lookupEntries, hk1]
        have hl2 : lookupEntries "leader" ((k, v) :: tl) = lookupEntries "leader" tl := by
          simp [lookupEntries, hk2]
        rw [hl1] at h1 ⊢
        rw [hl2] at h2 ⊢
        simp only [DimRadial.setPropertiesLoop, hstep]
        simpa [bind, Except.bind] using ih hnd.2 h1 h2 locals

theorem Dimension.propertyOr_coordinate (m : PropertiesMap) (key : String)
    (current : Coordinate) (h : ∀ v, m.find? key = some v → v.IsCoordinate) :
    Dimension.propertyOr m key EntityProperty.getCoordinate current =
      Except.ok (coordinateOr (m.find? key) current) := by
  unfold Dimension.propertyOr
  cases hf : m.find? key with
  | none => rfl
  | some v =>
    obtain ⟨value, rfl⟩ := h v hf
    rfl

theorem Dimension.propertyOr_double (m : PropertiesMap) (key : String)
    (current : ℚ) (h : ∀ v, m.find? key = some v → v.IsDouble) :
    Dimension.propertyOr m key EntityProperty.getDouble current =
      Except.ok (doubleOr (m.find? key) current) := by
  unfold Dimension.propertyOr
  cases hf : m.find? key with
  | none => rfl
  | some v =>
    obtain ⟨value, rfl⟩ := h v hf
    rfl

theorem Dimension.propertyOr_string (m : PropertiesMap) (key : String)
    (current : String) (h : ∀ v, m.find? key = some v → v.IsString) :
    Dimension.propertyOr m key EntityProperty.getString current =
      Except.ok (stringOr (m.find? key) current) := by
  unfold Dimension.propertyOr
  cases hf : m.find? key with
  | none => rfl
  | some v =>
    obtain ⟨value, rfl⟩ := h v hf
    rfl

/-- On a well-typed map the property edit succeeds and yields the entity described by the
lookups of the seven recognized keys. -/
theorem DimRadial.setProperties_of_wellTyped {T : EntityTypes} (e : LibreCAD.DimRadial T)
    (m : PropertiesMap) (c : IdCounter) (h : WellTyped m) :
    e.setProperties Dimension.setDimensionProperties m c =
      Except.ok
        ({ e with
            definitionPoint := coordinateOr (m.find? "definitionPoint") e.definitionPoint
            middleOfText := coordinateOr (m.find? "middleOfText") e.middleOfText
            textAngle := doubleOr (m.find? "textAngle") e.textAngle
            lineSpacingFactor := doubleOr (m.find? "lineSpacingFactor") e.lineSpacingFactor
            explicitValue := stringOr (m.find? "explicitValue") e.explicitValue
            definitionPoint2 := coordinateOr (m.find? "definitionPoint2") e.definitionPoint2
            leader := doubleOr (m.find? "leader") e.leader },
         (freshID c).2) := by
  obtain ⟨h1, h2, h3, h4, h5, h6, h7⟩ := h
  have hloop := DimRadial.setPropertiesLoop_wellTyped m.entries m.nodup h6 h7
    (e.definitionPoint2, e.leader)
  simp only [DimRadial.setProperties, Dimension.setDimensionProperties,
    Dimension.propertyOr_coordinate m _ _ h1, Dimension.propertyOr_coordinate m _ _ h2,
    Dimension.propertyOr_double m _ _ h3, Dimension.propertyOr_double m _ _ h4,
    Dimension.propertyOr_string m _ _ h5, hloop]
  rfl

theorem WellTyped_empty : WellTyped StdMap.empty := by
  simp [WellTyped, HasType, StdMap.find?_empty]

theorem WellTyped_availableProperties {T : EntityTypes} (e : LibreCAD.DimRadial T) :
    WellTyped (e.availableProperties Dimension.getDimensionProperties) := by
  simp [WellTyped, HasType, DimRadial.availableProperties, Dimension.getDimensionProperties,
    StdMap.find?_set, StdMap.find?_empty, EntityProperty.IsCoordinate,
    EntityProperty.IsDouble, EntityProperty.IsString]

theorem WellTyped_set_unrecognized (m : PropertiesMap) (k : String) (v : EntityProperty)
    (hk : k ∉ recognizedProperties) (h : WellTyped m) : WellTyped (m.set k v) := by
  simp only [recognizedProperties, List.mem_cons, List.mem_singleton, not_or,
    List.not_mem_nil, or_false] at hk
  obtain ⟨k1, k2, k3, k4, k5, k6, k7⟩ := hk
  simpa [WellTyped, HasType, StdMap.find?_set, Ne.symm k1, Ne.symm k2, Ne.symm k3, Ne.symm k4,
    Ne.symm k5, Ne.symm k6, Ne.symm k7] using h

/-- C8: on a well-typed map, setProperties returns an entity with the id of E in which
each recognized property is the value in the map when the map has the key and the current
value of E otherwise, and every remaining field is that of E; a key that is not
recognized has no effect; setProperties of the empty map and of E.availableProperties()
both return an entity equal to E in every field. -/
theorem DimRadial.setProperties_wellTyped {T : EntityTypes} (e : LibreCAD.DimRadial T)
    (m : PropertiesMap) (c : IdCounter) (h : WellTyped m) :
    e.setProperties Dimension.setDimensionProperties m c =
      Except.ok
        ({ e with
            definitionPoint := coordinateOr (m.find? "definitionPoint") e.definitionPoint
            middleOfText := coordinateOr (m.find? "middleOfText") e.middleOfText
            textAngle := doubleOr (m.find? "textAngle") e.textAngle
            lineSpacingFactor := doubleOr (m.find? "lineSpacingFactor") e.lineSpacingFactor
            explicitValue := stringOr (m.find? "explicitValue") e.explicitValue
            definitionPoint2 := coordinateOr (m.find? "definitionPoint2") e.definitionPoint2
            leader := doubleOr (m.find? "leader") e.leader },
         (freshID c).2) ∧
    (∀ k v, k ∉ recognizedProperties →
      e.setProperties Dimension.setDimensionProperties (m.set k v) c =
        e.setProperties Dimension.setDimensionProperties m c) ∧
    e.setProperties Dimension.setDimensionProperties StdMap.empty c =
      Except.ok (e, (freshID c).2) ∧
    e.setProperties Dimension.setDimensionProperties
        (e.availableProperties Dimension.getDimensionProperties) c =
      Except.ok (e, (freshID c).2) := by
  refine ⟨DimRadial.setProperties_of_wellTyped e m c h, ?_, ?_, ?_⟩
  · intro k v hk
    rw [DimRadial.setProperties_of_wellTyped e m c h,
      DimRadial.setProperties_of_wellTyped e (m.set k v) c
        (WellTyped_set_unrecognized m k v hk h)]
    simp only [recognizedProperties, List.mem_cons, List.mem_singleton, not_or,
      List.not_mem_nil, or_false] at hk
    obtain ⟨k1, k2, k3, k4, k5, k6, k7⟩ := hk
    simp [StdMap.find?_set, Ne.symm k1, Ne.symm k2, Ne.symm k3, Ne.symm k4,
      Ne.symm k5, Ne.symm k6, Ne.symm k7]
  · rw [DimRadial.setProperties_of_wellTyped e StdMap.empty c WellTyped_empty]
    simp [StdMap.find?_empty, coordinateOr, doubleOr, stringOr]
  · rw [DimRadial.setProperties_of_wellTyped e _ c (WellTyped_availableProperties e)]
    simp [DimRadial.availableProperties, Dimension.getDimensionProperties,
      StdMap.find?_set, StdMap.find?_empty, coordinateOr, doubleOr, stringOr]

/-- Witness of C8: a map that sets the leader to 9 and holds one unrecognized key. -/
theorem DimRadial.setProperties_wellTyped_witness :
    WellTyped exampleProperties ∧
    exampleDimRadial.setProperties Dimension.setDimensionProperties exampleProperties 7 =
      Except.ok ({ exampleDimRadial with leader := 9 }, 8) :=
  ⟨by decide, (DimRadial.setProperties_wellTyped exampleDimRadial exampleProperties 7
    (by decide)).1⟩

theorem DocumentRenderer.foldl_callDelete_calls {P W : Type} (r : DocumentRenderer P W)
    (entries : List (PainterCacheType × P)) (b : Backend P W) :
    (entries.foldl (fun b0 i => r.callDeletePainterFunctor i.2 b0) b).calls =
      b.calls ++ (entries.map Prod.snd).map FunctorCall.delete := by
  induction entries generalizing b with
  | nil => simp
  | cons hd tl ih =>
    rw [List.foldl_cons, ih]
    simp [DocumentRenderer.callDeletePainterFunctor]

/-- C9: newDeviceSize with the current device size changes neither the renderer (so the
painter cache stays as it is) nor the backend (no functor is called); with another size it
calls the delete functor once for every cache entry, on the surface of that entry, and
calls nothing else, leaves the cache empty, and records the new size. -/
theorem DocumentRenderer.newDeviceSize_spec {P W : Type} (r : DocumentRenderer P W)
    (width height : Nat) (b : Backend P W) :
    (width = r._deviceWidth ∧ height = r._deviceHeight →
      r.newDeviceSize width height b = (r, b)) ∧
    (¬ (width = r._deviceWidth ∧ height = r._deviceHeight) →
      (r.newDeviceSize width height b).2.calls =
        b.calls ++ r._cachedPainters.values.map FunctorCall.delete ∧
      (r.newDeviceSize width height b).1._cachedPainters.entries = [] ∧
      (r.newDeviceSize width height b).1._deviceWidth = width ∧
      (r.newDeviceSize width height b).1._deviceHeight = height) := by
  constructor
  · rintro ⟨hw, hh⟩
    simp [DocumentRenderer.newDeviceSize, hw, hh]
  · intro hne
    have hcond : r._deviceWidth ≠ width ∨ r._deviceHeight ≠ height := by
      by_contra hc
      simp only [not_or, not_not] at hc
      exact hne ⟨hc.1.symm, hc.2.symm⟩
    simp only [DocumentRenderer.newDeviceSize, if_pos hcond,
      DocumentRenderer.foldl_callDelete_calls, StdMap.values, StdMap.empty]
    exact ⟨trivial, trivial, trivial, trivial⟩

/-- Witness of C9: the 800 x 600 renderer with two cached surfaces is resized to
1024 x 768; the delete functor is called on surface 11 and on surface 12. -/
theorem DocumentRenderer.newDeviceSize_spec_witness :
    ¬ ((1024 : Nat) = exampleRenderer._deviceWidth ∧ (768 : Nat) = exampleRenderer._deviceHeight) ∧
    (exampleRenderer.newDeviceSize 1024 768 ⟨13, []⟩).2.calls =
      [FunctorCall.delete 11, FunctorCall.delete 12] ∧
    (exampleRenderer.newDeviceSize 1024 768 ⟨13, []⟩).1._cachedPainters.entries = [] ∧
    (exampleRenderer.newDeviceSize 1024 768 ⟨13, []⟩).1._deviceWidth = 1024 ∧
    (exampleRenderer.newDeviceSize 1024 768 ⟨13, []⟩).1._deviceHeight = 768 :=
  ⟨by decide,
   (DocumentRenderer.newDeviceSize_spec exampleRenderer 1024 768 ⟨13, []⟩).2 (by decide)⟩

/-- C10: when the cache has no surface for the purpose, cachedPainter calls the create
functor once, with the current device width and height, stores the result under the
purpose and returns it; when the cache has one, it calls no functor and returns the stored
surface. A second call returns the surface of the first and changes nothing; the entries
of other purposes stay as they are; the cache holds at most one entry per purpose. -/
theorem DocumentRenderer.cachedPainter_spec {P W : Type} (r : DocumentRenderer P W)
    (p : PainterCacheType) (b : Backend P W) :
    (r._cachedPainters.find? p = none →
      r.cachedPainter p b =
        ((r._createPainterFunctor r._deviceWidth r._deviceHeight b.world).1,
         { r with _cachedPainters := (r._cachedPainters.set p
            (r._createPainterFunctor r._deviceWidth r._deviceHeight b.world).1) },
         { world := (r._createPainterFunctor r._deviceWidth r._deviceHeight b.world).2
           calls := (b.calls ++ [FunctorCall.create r._deviceWidth r._deviceHeight
            (r._createPainterFunctor r._deviceWidth r._deviceHeight b.world).1]) })) ∧
    (∀ s, r._cachedPainters.find? p = some s → r.cachedPainter p b = (s, r, b)) ∧
    (r.cachedPainter p b).2.1._cachedPainters.find? p = some (r.cachedPainter p b).1 ∧
    (r.cachedPainter p b).2.1.cachedPainter p (r.cachedPainter p b).2.2 =
      r.cachedPainter p b ∧
    (∀ q, q ≠ p →
      (r.cachedPainter p b).2.1._cachedPainters.find? q = r._cachedPainters.find? q) ∧
    (∀ q, ((r.cachedPainter p b).2.1._cachedPainters.entries.map Prod.fst).count q ≤ 1) := by
  have hstored : (r.cachedPainter p b).2.1._cachedPainters.find? p =
      some (r.cachedPainter p b).1 := by
    cases hf : r._cachedPainters.find? p with
    | none =>
      simp [DocumentRenderer.cachedPainter, hf, DocumentRenderer.callCreatePainterFunctor,
        StdMap.find?_set]
    | some s => simp [DocumentRenderer.cachedPainter, hf]
  refine ⟨?_, ?_, hstored, ?_, ?_, ?_⟩
  · intro hf
    simp [DocumentRenderer.cachedPainter, hf, DocumentRenderer.callCreatePainterFunctor]
  · intro s hf
    simp [DocumentRenderer.cachedPainter, hf]
  · generalize r.cachedPainter p b = res at hstored
    obtain ⟨s, r1, b1⟩ := res
    simp only at hstored
    simp [DocumentRenderer.cachedPainter, hstored]
  · intro q hq
    cases hf : r._cachedPainters.find? p with
    | none =>
      simp [DocumentRenderer.cachedPainter, hf, DocumentRenderer.callCreatePainterFunctor,
        StdMap.find?_set, hq]
    | some s => simp [DocumentRenderer.cachedPainter, hf]
  · intro q
    exact List.nodup_iff_count_le_one.mp (r.cachedPainter p b).2.1._cachedPainters.nodup q

/-- Witness of C10: the renderer caches no foreground surface; cachedPainter creates
surface 13 with one call of the create functor for 800 x 600. -/
theorem DocumentRenderer.cachedPainter_spec_witness :
    exampleRenderer._cachedPainters.find? PainterCacheType.VIEWER_DRAWING = none ∧
    exampleRenderer.cachedPainter PainterCacheType.VIEWER_DRAWING ⟨13, []⟩ =
      (13,
       { exampleRenderer with
          _cachedPainters :=
            exampleRenderer._cachedPainters.set PainterCacheType.VIEWER_DRAWING 13 },
       ⟨14, [FunctorCall.create 800 600 13]⟩) :=
  ⟨by decide,
   (DocumentRenderer.cachedPainter_spec exampleRenderer PainterCacheType.VIEWER_DRAWING
      ⟨13, []⟩).1 (by decide)⟩

/-! ### Lemmas on maps, painters and the cache for the view operations -/

theorem setEntries_of_lookupEntries {K V : Type} [DecidableEq K] (k : K) (v : V)
    (l : List (K × V)) (h : lookupEntries k l = some v) : setEntries k v l = l := by
  induction l with
  | nil => simp [lookupEntries] at h
  | cons hd tl ih =>
    obtain ⟨k1, v1⟩ := hd
    by_cases hk : k1 = k
    · simp only [lookupEntries, if_pos hk, Option.some.injEq] at h
      simp [setEntries, hk, h]
    · simp only [lookupEntries, if_neg hk] at h
      simp [setEntries, hk, ih h]

theorem StdMap.set_of_find? {K V : Type} [DecidableEq K] (m : StdMap K V) (k : K) (v : V)
    (h : m.find? k = some v) : m.set k v = m := by
  obtain ⟨entries, nodup⟩ := m
  simp only [StdMap.set, StdMap.mk.injEq]
  exact setEntries_of_lookupEntries k v entries h

theorem lookupEntries_mapEntries {K V : Type} [DecidableEq K] (f : V → V) (k : K)
    (l : List (K × V)) :
    lookupEntries k (l.map (fun i => (i.1, f i.2))) = (lookupEntries k l).map f := by
  induction l with
  | nil => rfl
  | cons hd tl ih =>
    obtain ⟨k1, v1⟩ := hd
    by_cases hk : k1 = k
    · simp [lookupEntries, hk]
    · simp [lookupEntries, hk, ih]

theorem StdMap.find?_mapValues {K V : Type} [DecidableEq K] (m : StdMap K V) (f : V → V)
    (k : K) : (m.mapValues f).find? k = (m.find? k).map f :=
  lookupEntries_mapEntries f k m.entries

theorem StdMap.values_mapValues {K V : Type} [DecidableEq K] (m : StdMap K V) (f : V → V) :
    (m.mapValues f).values = m.values.map f := by
  simp [StdMap.values, StdMap.mapValues, List.map_map, Function.comp]

theorem StdMap.mem_values_of_find? {K V : Type} [DecidableEq K] (m : StdMap K V) (k : K)
    (v : V) (h : m.find? k = some v) : v ∈ m.values := by
  have := mem_of_lookupEntries k v m.entries h
  simp only [StdMap.values, List.mem_map]
  exact ⟨(k, v), this, rfl⟩

theorem StdMap.set_set {K V : Type} [DecidableEq K] (m : StdMap K V) (k : K) (v : V) :
    (m.set k v).set k v = m.set k v :=
  StdMap.set_of_find? (m.set k v) k v (by simp [StdMap.find?_set])

theorem LcPainter.restore_scale_save (p : LcPainter) (s : ℚ) :
    ((p.save).scale s).restore = p := by
  simp [LcPainter.save, LcPainter.scale, LcPainter.restore]

theorem DocumentRenderer.cachedPainter_hit {P W : Type} (r : DocumentRenderer P W)
    (q : PainterCacheType) (b : Backend P W) (p : P)
    (h : r._cachedPainters.find? q = some p) : r.cachedPainter q b = (p, r, b) := by
  simp [DocumentRenderer.cachedPainter, h]

theorem DocumentRenderer.cachedPainter_stores {P W : Type} (r : DocumentRenderer P W)
    (q : PainterCacheType) (b : Backend P W) :
    (r.cachedPainter q b).2.1._cachedPainters.find? q = some (r.cachedPainter q b).1 := by
  cases hf : r._cachedPainters.find? q with
  | none =>
    simp [DocumentRenderer.cachedPainter, hf, DocumentRenderer.callCreatePainterFunctor,
      StdMap.find?_set]
  | some s => simp [DocumentRenderer.cachedPainter, hf]

theorem DocumentRenderer.cachedPainter_keeps_entry {P W : Type} (r : DocumentRenderer P W)
    (q : PainterCacheType) (b : Backend P W) (q1 : PainterCacheType) (p1 : P)
    (h : r._cachedPainters.find? q1 = some p1) :
    (r.cachedPainter q b).2.1._cachedPainters.find? q1 = some p1 := by
  cases hf : r._cachedPainters.find? q with
  | none =>
    have hne : q1 ≠ q := fun heq => by rw [heq, hf] at h; cases h
    simp [DocumentRenderer.cachedPainter, hf, DocumentRenderer.callCreatePainterFunctor,
      StdMap.find?_set, hne, h]
  | some s => simpa [DocumentRenderer.cachedPainter, hf] using h

theorem RendererState.cachedPainter_of_some {V : ViewerTypes} {W : Type}
    (r : RendererState V W) (q : PainterCacheType) (b : Backend LcPainter W) (p : LcPainter)
    (h : r._cachedPainters.find? q = some p) : r.cachedPainter q b = (p, r, b) := by
  simp [RendererState.cachedPainter, DocumentRenderer.cachedPainter_hit _ q b p h]

theorem RendererState.cachedPainter_find?_self {V : ViewerTypes} {W : Type}
    (r : RendererState V W) (q : PainterCacheType) (b : Backend LcPainter W) :
    (r.cachedPainter q b).2.1._cachedPainters.find? q = some (r.cachedPainter q b).1 :=
  DocumentRenderer.cachedPainter_stores r.toDocumentRenderer q b

theorem RendererState.cachedPainter_keeps {V : ViewerTypes} {W : Type}
    (r : RendererState V W) (q : PainterCacheType) (b : Backend LcPainter W)
    (q1 : PainterCacheType) (p1 : LcPainter) (h : r._cachedPainters.find? q1 = some p1) :
    (r.cachedPainter q b).2.1._cachedPainters.find? q1 = some p1 :=
  DocumentRenderer.cachedPainter_keeps_entry r.toDocumentRenderer q b q1 p1 h

/-- A scroll that the zoom limits reject ends right after the lookup of the document
painter. -/
theorem RendererState.scrollTo_rejected {V : ViewerTypes} {W : Type} (r : RendererState V W)
    (factor : ℚ) (x y : Nat) (b : Backend LcPainter W)
    (h : (r._zoomMax ≤
          (r.cachedPainter PainterCacheType.VIEWER_DOCUMENT b).1.currentScale ∧ factor > 1) ∨
        (r._zoomMin ≥
          (r.cachedPainter PainterCacheType.VIEWER_DOCUMENT b).1.currentScale ∧ factor < 1)) :
    r.scrollTo factor x y b =
      ((r.cachedPainter PainterCacheType.VIEWER_DOCUMENT b).2.1,
       (r.cachedPainter PainterCacheType.VIEWER_DOCUMENT b).2.2) := by
  unfold RendererState.scrollTo
  have h1 : (r.cachedPainter PainterCacheType.VIEWER_DOCUMENT b).2.1._zoomMax = r._zoomMax := rfl
  have h2 : (r.cachedPainter PainterCacheType.VIEWER_DOCUMENT b).2.1._zoomMin = r._zoomMin := rfl
  simp only [h1, h2, if_pos h]

theorem RendererState.cachedPainter_deviceSize {V : ViewerTypes} {W : Type}
    (r : RendererState V W) (q : PainterCacheType) (b : Backend LcPainter W) :
    (r.cachedPainter q b).2.1._deviceWidth = r._deviceWidth ∧
    (r.cachedPainter q b).2.1._deviceHeight = r._deviceHeight := by
  cases hf : r._cachedPainters.find? q with
  | none =>
    simp [RendererState.cachedPainter, DocumentRenderer.cachedPainter, hf,
      DocumentRenderer.callCreatePainterFunctor]
  | some s => simp [RendererState.cachedPainter, DocumentRenderer.cachedPainter, hf]

/-- A scroll that the zoom limits let through, with the document painter `p` in the
cache: every cached painter is translated and scaled, and the visible area is computed
anew from the document painter. -/
theorem RendererState.scrollTo_accepted_of_some {V : ViewerTypes} {W : Type}
    (r : RendererState V W) (factor : ℚ) (x y : Nat) (b : Backend LcPainter W)
    (p : LcPainter) (hf : r._cachedPainters.find? PainterCacheType.VIEWER_DOCUMENT = some p)
    (h : ¬ ((r._zoomMax ≤ p.currentScale ∧ factor > 1) ∨
        (r._zoomMin ≥ p.currentScale ∧ factor < 1))) :
    r.scrollTo factor x y b =
      ({ r with
          _cachedPainters := r._cachedPainters.mapValues (scrolled p factor x y)
          _visibleUserArea :=
            visibleArea (scrolled p factor x y p) r._deviceWidth r._deviceHeight }, b) := by
  have hc := RendererState.cachedPainter_of_some r PainterCacheType.VIEWER_DOCUMENT b p hf
  unfold RendererState.scrollTo
  simp only [hc, if_neg h, LcPainter.restore_scale_save, StdMap.set_of_find? _ _ _ hf]
  rw [RendererState.cachedPainter_of_some _ PainterCacheType.VIEWER_DOCUMENT b
    (scrolled p factor x y p) (by simp only [StdMap.find?_mapValues, hf]; rfl)]
  rfl

theorem RendererState.scrollTo_after_cachedPainter {V : ViewerTypes} {W : Type}
    (r : RendererState V W) (factor : ℚ) (x y : Nat) (b : Backend LcPainter W) :
    r.scrollTo factor x y b =
      (r.cachedPainter PainterCacheType.VIEWER_DOCUMENT b).2.1.scrollTo factor x y
        (r.cachedPainter PainterCacheType.VIEWER_DOCUMENT b).2.2 := by
  have hself := RendererState.cachedPainter_find?_self r PainterCacheType.VIEWER_DOCUMENT b
  have hc := RendererState.cachedPainter_of_some _ PainterCacheType.VIEWER_DOCUMENT
    (r.cachedPainter PainterCacheType.VIEWER_DOCUMENT b).2.2 _ hself
  conv_rhs => unfold RendererState.scrollTo
  rw [hc]
  rfl

/-! ### Zoom limits and zoom to cursor -/

/-- C11: when the scale of the document painter (the cached one, or the one that
scrollTo creates when the cache has none) is at least zoomMax and the factor exceeds 1,
or the scale is at most zoomMin and the factor is below 1, scrollTo leaves every cached
painter as it is, scale and translation included, and leaves the stored visible user-space
area as it is, for every device point; with the document painter in the cache the call
changes nothing at all. -/
theorem RendererState.scrollTo_at_zoom_limit {V : ViewerTypes} {W : Type}
    (r : RendererState V W) (factor : ℚ) (x y : Nat) (b : Backend LcPainter W)
    (h : (r._zoomMax ≤
          (r.cachedPainter PainterCacheType.VIEWER_DOCUMENT b).1.currentScale ∧ factor > 1) ∨
        (r._zoomMin ≥
          (r.cachedPainter PainterCacheType.VIEWER_DOCUMENT b).1.currentScale ∧ factor < 1)) :
    (∀ q p, r._cachedPainters.find? q = some p →
      (r.scrollTo factor x y b).1._cachedPainters.find? q = some p) ∧
    (r.scrollTo factor x y b).1._visibleUserArea = r._visibleUserArea ∧
    (∀ d, r._cachedPainters.find? PainterCacheType.VIEWER_DOCUMENT = some d →
      r.scrollTo factor x y b = (r, b)) := by
  rw [RendererState.scrollTo_rejected r factor x y b h]
  refine ⟨?_, rfl, ?_⟩
  · intro q p hq
    exact RendererState.cachedPainter_keeps r PainterCacheType.VIEWER_DOCUMENT b q p hq
  · intro d hd
    rw [RendererState.cachedPainter_of_some r PainterCacheType.VIEWER_DOCUMENT b d hd]

/-- Witness of C11: the document painter has scale 20 and the factor is 2. -/
theorem RendererState.scrollTo_at_zoom_limit_witness :
    ((exampleZoomedView._zoomMax ≤
        (exampleZoomedView.cachedPainter PainterCacheType.VIEWER_DOCUMENT
          exampleBackend).1.currentScale ∧ (2 : ℚ) > 1) ∨
      (exampleZoomedView._zoomMin ≥
        (exampleZoomedView.cachedPainter PainterCacheType.VIEWER_DOCUMENT
          exampleBackend).1.currentScale ∧ (2 : ℚ) < 1)) ∧
    (exampleZoomedView.scrollTo 2 10 0 exampleBackend).1._visibleUserArea =
      exampleZoomedView._visibleUserArea :=
  ⟨Or.inl (by decide!),
   (RendererState.scrollTo_at_zoom_limit exampleZoomedView 2 10 0 exampleBackend
      (Or.inl (by decide!))).2.1⟩

/-- C12, as stated, fails: the document painter has scale 1, within [0.05, 20]; the factor
100 would take the scale to 100, outside the interval; scrollTo is not a no-op, and the
scale of the document painter is 100 afterwards. -/
theorem RendererState.scrollTo_leaves_zoom_interval :
    exampleView._cachedPainters.find? PainterCacheType.VIEWER_DOCUMENT = some identityPainter ∧
    exampleView._zoomMin = 0.05 ∧ exampleView._zoomMax = 20.0 ∧
    exampleView._zoomMin ≤ identityPainter.currentScale ∧
    identityPainter.currentScale ≤ exampleView._zoomMax ∧
    exampleView._zoomMax < identityPainter.currentScale * 100 ∧
    ((exampleView.scrollTo 100 10 0 exampleBackend).1._cachedPainters.find?
      PainterCacheType.VIEWER_DOCUMENT).map LcPainter.currentScale = some 100 ∧
    ¬ ((100 : ℚ) ≤ exampleView._zoomMax) := by
  decide!

theorem scrolled_currentScale (p q : LcPainter) (factor : ℚ) (x y : Nat) :
    (scrolled p factor x y q).currentScale = q.currentScale * factor := rfl

/-- C12, amended: with the document painter of scale s in the cache, scrollTo changes
nothing when s >= zoomMax and the factor exceeds 1, or s <= zoomMin and the factor is below
1; in every other case it multiplies the scale by the factor, whether or not the product
lies in [zoomMin, zoomMax]. Hence, for zoomMin <= s <= zoomMax and a positive factor f, the
scale after scrollTo is s or s*f and lies between min(zoomMin, zoomMin*f) and
max(zoomMax, zoomMax*f). -/
theorem RendererState.scrollTo_zoom_guard {V : ViewerTypes} {W : Type}
    (r : RendererState V W) (factor : ℚ) (x y : Nat) (b : Backend LcPainter W)
    (p : LcPainter) (hp : r._cachedPainters.find? PainterCacheType.VIEWER_DOCUMENT = some p) :
    ((r._zoomMax ≤ p.currentScale ∧ factor > 1) ∨ (r._zoomMin ≥ p.currentScale ∧ factor < 1) →
      r.scrollTo factor x y b = (r, b)) ∧
    (¬ ((r._zoomMax ≤ p.currentScale ∧ factor > 1) ∨
        (r._zoomMin ≥ p.currentScale ∧ factor < 1)) →
      (r.scrollTo factor x y b).1._cachedPainters.find? PainterCacheType.VIEWER_DOCUMENT =
        some (scrolled p factor x y p) ∧
      (scrolled p factor x y p).currentScale = p.currentScale * factor) ∧
    (r._zoomMin ≤ p.currentScale → p.currentScale ≤ r._zoomMax → 0 ≤ r._zoomMin →
      0 < factor →
      ∃ d, (r.scrollTo factor x y b).1._cachedPainters.find?
          PainterCacheType.VIEWER_DOCUMENT = some d ∧
        (d.currentScale = p.currentScale ∨ d.currentScale = p.currentScale * factor) ∧
        min r._zoomMin (r._zoomMin * factor) ≤ d.currentScale ∧
        d.currentScale ≤ max r._zoomMax (r._zoomMax * factor)) := by
  have hc := RendererState.cachedPainter_of_some r PainterCacheType.VIEWER_DOCUMENT b p hp
  have hrej : (r._zoomMax ≤ p.currentScale ∧ factor > 1) ∨
      (r._zoomMin ≥ p.currentScale ∧ factor < 1) → r.scrollTo factor x y b = (r, b) := by
    intro h
    have := RendererState.scrollTo_rejected r factor x y b (by rw [hc]; exact h)
    rw [this, hc]
  have hacc : ¬ ((r._zoomMax ≤ p.currentScale ∧ factor > 1) ∨
      (r._zoomMin ≥ p.currentScale ∧ factor < 1)) →
      (r.scrollTo factor x y b).1._cachedPainters.find? PainterCacheType.VIEWER_DOCUMENT =
        some (scrolled p factor x y p) := by
    intro h
    rw [RendererState.scrollTo_accepted_of_some r factor x y b p hp h]
    simp only [StdMap.find?_mapValues, hp]
    rfl
  refine ⟨hrej, fun h => ⟨hacc h, rfl⟩, ?_⟩
  intro hlo hhi hmin hf
  have hs : 0 ≤ p.currentScale := le_trans hmin hlo
  by_cases h : (r._zoomMax ≤ p.currentScale ∧ factor > 1) ∨
      (r._zoomMin ≥ p.currentScale ∧ factor < 1)
  · refine ⟨p, by rw [hrej h]; exact hp, Or.inl rfl, ?_, ?_⟩
    · exact le_trans (min_le_left _ _) hlo
    · exact le_trans hhi (le_max_left _ _)
  · refine ⟨scrolled p factor x y p, hacc h, Or.inr rfl, ?_, ?_⟩
    · rw [scrolled_currentScale]
      exact le_trans (min_le_right _ _) (mul_le_mul_of_nonneg_right hlo (le_of_lt hf))
    · rw [scrolled_currentScale]
      exact le_trans (mul_le_mul_of_nonneg_right hhi (le_of_lt hf)) (le_max_right _ _)

/-- Witness of C12, amended: the document painter has scale 1 and the factor is 100. -/
theorem RendererState.scrollTo_zoom_guard_witness :
    exampleView._cachedPainters.find? PainterCacheType.VIEWER_DOCUMENT = some identityPainter ∧
    ¬ ((exampleView._zoomMax ≤ identityPainter.currentScale ∧ (100 : ℚ) > 1) ∨
        (exampleView._zoomMin ≥ identityPainter.currentScale ∧ (100 : ℚ) < 1)) ∧
    (exampleView.scrollTo 100 10 0 exampleBackend).1._cachedPainters.find?
        PainterCacheType.VIEWER_DOCUMENT =
      some (scrolled identityPainter 100 10 0 identityPainter) ∧
    (scrolled identityPainter 100 10 0 identityPainter).currentScale =
      identityPainter.currentScale * 100 :=
  ⟨by decide!, by decide!,
   (RendererState.scrollTo_zoom_guard exampleView 100 10 0 exampleBackend identityPainter
      (by decide!)).2.1 (by decide!)⟩

/-- C13 on a concrete input: the document painter has the identity transform, so the
device point (10, 0) lies over the user-space point (10, 0); scrollTo(2, 10, 0) is not
rejected, and afterwards the device point (10, 0) lies over the user-space point
(15/2, 0): the point under the cursor has moved. -/
theorem RendererState.scrollTo_moves_point_under_cursor :
    exampleView._cachedPainters.find? PainterCacheType.VIEWER_DOCUMENT = some identityPainter ∧
    identityPainter.device_to_user 10 0 = (10, 0) ∧
    ¬ ((exampleView._zoomMax ≤ identityPainter.currentScale ∧ (2 : ℚ) > 1) ∨
        (exampleView._zoomMin ≥ identityPainter.currentScale ∧ (2 : ℚ) < 1)) ∧
    ((exampleView.scrollTo 2 10 0 exampleBackend).1._cachedPainters.find?
      PainterCacheType.VIEWER_DOCUMENT).map (fun p => p.device_to_user 10 0) =
      some (15 / 2, 0) := by
  decide!

/-- C14 on a concrete input: from the identity transform and the visible area
(0,0)-(800,600), scrollTo(2, 10, 0) followed by scrollTo(1/2, 10, 0), neither rejected,
ends with the document painter translated by (10, 0) and the visible area
(-10,0)-(790,600): neither is restored. -/
theorem RendererState.scrollTo_reciprocal_not_restored :
    exampleView._cachedPainters.find? PainterCacheType.VIEWER_DOCUMENT =
      some ⟨⟨1, 0, 0⟩, []⟩ ∧
    exampleView._visibleUserArea = ⟨⟨0, 0⟩, ⟨800, 600⟩⟩ ∧
    (exampleView.scrollTo 2 10 0 exampleBackend).1._cachedPainters.find?
      PainterCacheType.VIEWER_DOCUMENT = some ⟨⟨2, -5, 0⟩, []⟩ ∧
    ((exampleView.scrollTo 2 10 0 exampleBackend).1.scrollTo (1 / 2) 10 0
      (exampleView.scrollTo 2 10 0 exampleBackend).2).1._cachedPainters.find?
      PainterCacheType.VIEWER_DOCUMENT = some ⟨⟨1, 10, 0⟩, []⟩ ∧
    ((exampleView.scrollTo 2 10 0 exampleBackend).1.scrollTo (1 / 2) 10 0
      (exampleView.scrollTo 2 10 0 exampleBackend).2).1._visibleUserArea =
      ⟨⟨-10, 0⟩, ⟨790, 600⟩⟩ := by
  decide!

/-- The two calls of the loop in the other order, `scale` first and `translate` second,
with the same arguments, keep the user-space point under the device point `(x, y)`. -/
theorem scale_then_translate_keeps_point (p : LcPainter) (factor : ℚ) (x y : Nat)
    (hs : p.ctm.scale ≠ 0) (hf : factor ≠ 0) :
    (((p.scale factor).translate
        (-(p.device_to_user x y).1 + ((p.scale factor).device_to_user x y).1)
        (-(p.device_to_user x y).2 + ((p.scale factor).device_to_user x y).2)).device_to_user
      x y) = p.device_to_user x y := by
  simp only [LcPainter.device_to_user, LcPainter.scale, LcPainter.translate, Prod.mk.injEq]
  constructor <;> field_simp <;> ring

/-! ### Rendering -/

theorem RendererState.cachedPainter_fields {V : ViewerTypes} {W : Type}
    (r : RendererState V W) (q : PainterCacheType) (b : Backend LcPainter W) :
    (r.cachedPainter q b).2.1._backgroundItems = r._backgroundItems ∧
    (r.cachedPainter q b).2.1._foregroundItems = r._foregroundItems ∧
    (r.cachedPainter q b).2.1._entityContainer = r._entityContainer ∧
    (r.cachedPainter q b).2.1._visibleUserArea = r._visibleUserArea :=
  ⟨rfl, rfl, rfl, rfl⟩

/-- C15: render calls the callback three times, with the background surface, then the
document surface, then the foreground surface. The events of the pass split into the
calls on the background surface, its callback, the calls on the document surface, its
callback, the calls on the foreground surface, its callback; so each callback comes after
all drawing on its surface in the pass. Each surface passed is the one that the cache
holds for the purpose. -/
theorem RendererState.render_callbacks {V : ViewerTypes} {W : Type} (r : RendererState V W)
    (b : Backend LcPainter W) :
    ∃ pb pd pf bg doc fg,
      (r.render b).2.2 =
        bg ++ [RenderEvent.wPainter PainterCacheType.VIEWER_BACKGROUND pb] ++
        doc ++ [RenderEvent.wPainter PainterCacheType.VIEWER_DOCUMENT pd] ++
        fg ++ [RenderEvent.wPainter PainterCacheType.VIEWER_DRAWING pf] ∧
      (∀ e ∈ bg, e.purpose = PainterCacheType.VIEWER_BACKGROUND ∧ e.isWPainter = false) ∧
      (∀ e ∈ doc, e.purpose = PainterCacheType.VIEWER_DOCUMENT ∧ e.isWPainter = false) ∧
      (∀ e ∈ fg, e.purpose = PainterCacheType.VIEWER_DRAWING ∧ e.isWPainter = false) ∧
      (r.render b).1._cachedPainters.find? PainterCacheType.VIEWER_BACKGROUND = some pb ∧
      (r.render b).1._cachedPainters.find? PainterCacheType.VIEWER_DOCUMENT = some pd ∧
      (r.render b).1._cachedPainters.find? PainterCacheType.VIEWER_DRAWING = some pf := by
  unfold RendererState.render
  simp only
  generalize r.cachedPainter PainterCacheType.VIEWER_DOCUMENT b = res1
  obtain ⟨p1, r1, b1⟩ := res1
  simp only
  have h2 := RendererState.cachedPainter_find?_self r1 PainterCacheType.VIEWER_BACKGROUND b1
  generalize r1.cachedPainter PainterCacheType.VIEWER_BACKGROUND b1 = res2 at h2 ⊢
  obtain ⟨p2, r2, b2⟩ := res2
  simp only at h2 ⊢
  have h3 := RendererState.cachedPainter_find?_self r2 PainterCacheType.VIEWER_DOCUMENT b2
  have k3 := RendererState.cachedPainter_keeps r2 PainterCacheType.VIEWER_DOCUMENT b2 _ _ h2
  generalize r2.cachedPainter PainterCacheType.VIEWER_DOCUMENT b2 = res3 at h3 k3 ⊢
  obtain ⟨p3, r3, b3⟩ := res3
  simp only at h3 k3 ⊢
  have h4 := RendererState.cachedPainter_find?_self r3 PainterCacheType.VIEWER_DRAWING b3
  have k4 := RendererState.cachedPainter_keeps r3 PainterCacheType.VIEWER_DRAWING b3 _ _ h3
  have l4 := RendererState.cachedPainter_keeps r3 PainterCacheType.VIEWER_DRAWING b3 _ _ k3
  generalize r3.cachedPainter PainterCacheType.VIEWER_DRAWING b3 = res4 at h4 k4 l4 ⊢
  obtain ⟨p4, r4, b4⟩ := res4
  simp only at h4 k4 l4 ⊢
  refine ⟨p2, p3, p4,
    (if r2._backgroundItems.length = 0 then
      [RenderEvent.onPainter PainterCacheType.VIEWER_BACKGROUND p2
        (PainterCall.clear 0 0.1 0 none)]
     else []) ++
    r2._backgroundItems.map (fun item =>
      RenderEvent.onPainter PainterCacheType.VIEWER_BACKGROUND p2
        (PainterCall.drawItem item r2._visibleUserArea)),
    [RenderEvent.onPainter PainterCacheType.VIEWER_DOCUMENT p3
       (PainterCall.clear 1 1 1 (some 0)),
     RenderEvent.onPainter PainterCacheType.VIEWER_DOCUMENT p3
       (PainterCall.source_rgb 1 1 1),
     RenderEvent.onPainter PainterCacheType.VIEWER_DOCUMENT p3
       (PainterCall.lineWidthCompensation 0.5)] ++
    r3._entityContainer.allEntities.map (fun item =>
      RenderEvent.onPainter PainterCacheType.VIEWER_DOCUMENT p3
        (PainterCall.drawEntity item r3._visibleUserArea)),
    [RenderEvent.onPainter PainterCacheType.VIEWER_DRAWING p4
       (PainterCall.clear 1 1 1 (some 0.0))] ++
    r4._foregroundItems.map (fun item =>
      RenderEvent.onPainter PainterCacheType.VIEWER_DRAWING p4
        (PainterCall.drawItem item r4._visibleUserArea)),
    ?_, ?_, ?_, ?_, l4, k4, h4⟩
  · simp only [List.append_assoc]
  · intro e he
    simp only [List.mem_append, List.mem_map] at he
    rcases he with he | ⟨item, _, rfl⟩
    · split at he
      · simp only [List.mem_singleton] at he
        subst he
        exact ⟨rfl, rfl⟩
      · simp at he
    · exact ⟨rfl, rfl⟩
  · intro e he
    simp only [List.mem_append, List.mem_map, List.mem_cons, List.mem_singleton,
      List.not_mem_nil, or_false] at he
    rcases he with (rfl | rfl | rfl) | ⟨item, _, rfl⟩ <;> exact ⟨rfl, rfl⟩
  · intro e he
    simp only [List.mem_append, List.mem_map, List.mem_singleton] at he
    rcases he with rfl | ⟨item, _, rfl⟩ <;> exact ⟨rfl, rfl⟩

/-! ### Document events -/

/-- C16: for an entity that is neither a line nor a circle, on_addEntityEvent returns the
renderer as it was: the entity container is unchanged, its item count has not grown, and
the function has no error exit. -/
theorem RendererState.on_addEntityEvent_other {V : ViewerTypes} {W : Type}
    (r : RendererState V W) (e : CADEntity V) (hl : e.asLine = none)
    (hc : e.asCircle = none) :
    r.on_addEntityEvent ⟨e⟩ = r ∧
    (r.on_addEntityEvent ⟨e⟩)._entityContainer = r._entityContainer ∧
    (r.on_addEntityEvent ⟨e⟩)._entityContainer.entities.length =
      r._entityContainer.entities.length := by
  have h : r.on_addEntityEvent ⟨e⟩ = r := by
    simp [RendererState.on_addEntityEvent, hl, hc]
  rw [h]
  exact ⟨rfl, rfl, rfl⟩

/-- Witness of C16: a radial dimension is added. -/
theorem RendererState.on_addEntityEvent_other_witness :
    (CADEntity.other exampleDimRadial : CADEntity ExampleViewerTypes).asLine = none ∧
    (CADEntity.other exampleDimRadial : CADEntity ExampleViewerTypes).asCircle = none ∧
    (exampleView.on_addEntityEvent ⟨CADEntity.other exampleDimRadial⟩)._entityContainer.entities.length =
      exampleView._entityContainer.entities.length :=
  ⟨rfl, rfl,
   (RendererState.on_addEntityEvent_other exampleView (CADEntity.other exampleDimRadial)
      rfl rfl).2.2⟩

/-- C17: from an empty entity container, on_addEntityEvent for a line L1 followed by
on_commitProcessEvent leaves the container with exactly one drawable, the wrapper of L1,
and bounds() is the bounding box of L1. -/
theorem RendererState.add_line_then_commit {V : ViewerTypes} {W : Type}
    (r : RendererState V W) (l1 : V.Line) (he : r._entityContainer.entities = []) :
    ((r.on_addEntityEvent ⟨CADEntity.line l1⟩).on_commitProcessEvent)._entityContainer.entities =
      [LCVEntity.lcvLine l1 false] ∧
    ((r.on_addEntityEvent ⟨CADEntity.line l1⟩).on_commitProcessEvent).bounds =
      some (V.lineBoundingBox l1) := by
  simp [RendererState.on_addEntityEvent, RendererState.on_commitProcessEvent,
    RendererState.bounds, CADEntity.asLine, EntityContainer.insert, EntityContainer.optimise,
    EntityContainer.bounds, LCVEntity.LCVLine, LCVEntity.boundingBox, he]

/-- Witness of C17: line 4, which spans (0,0) to (4,4), is added to an empty container. -/
theorem RendererState.add_line_then_commit_witness :
    exampleView._entityContainer.entities = [] ∧
    ((exampleView.on_addEntityEvent ⟨CADEntity.line (4 : Nat)⟩).on_commitProcessEvent).bounds =
      some ⟨⟨0, 0⟩, ⟨4, 4⟩⟩ :=
  ⟨rfl, (RendererState.add_line_then_commit exampleView (4 : Nat) rfl).2⟩

/-- C18: on_addEntityEvent for a circle inserts one drawable, the wrapper of the circle
with the selection flag true; for a line it inserts one drawable, the wrapper of the line
with the selection flag false. -/
theorem RendererState.on_addEntityEvent_selection {V : ViewerTypes} {W : Type}
    (r : RendererState V W) (c1 : V.Circle) (l1 : V.Line) :
    (r.on_addEntityEvent ⟨CADEntity.circle c1⟩)._entityContainer.entities =
      r._entityContainer.entities ++ [LCVEntity.lcvCircle c1 true] ∧
    (LCVEntity.lcvCircle c1 true : LCVEntity V).isSelected = true ∧
    (r.on_addEntityEvent ⟨CADEntity.line l1⟩)._entityContainer.entities =
      r._entityContainer.entities ++ [LCVEntity.lcvLine l1 false] ∧
    (LCVEntity.lcvLine l1 false : LCVEntity V).isSelected = false ∧
    (r.on_addEntityEvent ⟨CADEntity.circle c1⟩)._entityContainer.entities.length =
      r._entityContainer.entities.length + 1 ∧
    (r.on_addEntityEvent ⟨CADEntity.line l1⟩)._entityContainer.entities.length =
      r._entityContainer.entities.length + 1 := by
  simp [RendererState.on_addEntityEvent, CADEntity.asLine, CADEntity.asCircle,
    EntityContainer.insert, LCVEntity.LCVLine, LCVEntity.LCVCircle, LCVEntity.selected,
    LCVEntity.isSelected]

/-! ### Clearing before drawing -/

theorem clearedBeforeDraws_true {V : ViewerTypes} (q : PainterCacheType)
    (l : List (RenderEvent V)) : clearedBeforeDraws q true l = true := by
  induction l with
  | nil => rfl
  | cons e rest ih =>
    simp only [clearedBeforeDraws, ih, Bool.and_self, ite_self]

theorem clearedBeforeDraws_skip {V : ViewerTypes} (q : PainterCacheType) (cleared : Bool)
    (l1 l2 : List (RenderEvent V)) (h : ∀ e ∈ l1, e.purpose ≠ q) :
    clearedBeforeDraws q cleared (l1 ++ l2) = clearedBeforeDraws q cleared l2 := by
  induction l1 with
  | nil => rfl
  | cons e rest ih =>
    have he : e.purpose ≠ q := h e (List.mem_cons_self _ _)
    simp only [List.cons_append, clearedBeforeDraws, if_neg he]
    exact ih (fun e1 h1 => h e1 (List.mem_cons_of_mem _ h1))

theorem clearedBeforeDraws_cons_clear {V : ViewerTypes} (q : PainterCacheType)
    (cleared : Bool) (e : RenderEvent V) (rest : List (RenderEvent V))
    (hp : e.purpose = q) (hc : e.isClear = true) :
    clearedBeforeDraws q cleared (e :: rest) = true := by
  rw [clearedBeforeDraws, if_pos hp, if_pos hc]
  exact clearedBeforeDraws_true q rest

theorem clearedBeforeDraws_cons_draw {V : ViewerTypes} (q : PainterCacheType)
    (e : RenderEvent V) (rest : List (RenderEvent V))
    (hp : e.purpose = q) (hc : e.isClear = false) (hd : e.isDraw = true) :
    clearedBeforeDraws q false (e :: rest) = false := by
  rw [clearedBeforeDraws, if_pos hp, if_neg (by simp [hc]), if_pos hd]
  rfl

/-- The events of a render pass, written out. -/
theorem RendererState.render_events {V : ViewerTypes} {W : Type} (r : RendererState V W)
    (b : Backend LcPainter W) :
    ∃ pb pd pf,
      (r.render b).2.2 =
        ((if r._backgroundItems.length = 0 then
            [RenderEvent.onPainter PainterCacheType.VIEWER_BACKGROUND pb
              (PainterCall.clear 0 0.1 0 none)]
          else []) ++
         r._backgroundItems.map (fun item =>
           RenderEvent.onPainter PainterCacheType.VIEWER_BACKGROUND pb
             (PainterCall.drawItem item r._visibleUserArea)) ++
         [RenderEvent.wPainter PainterCacheType.VIEWER_BACKGROUND pb]) ++
        ([RenderEvent.onPainter PainterCacheType.VIEWER_DOCUMENT pd
            (PainterCall.clear 1 1 1 (some 0)),
          RenderEvent.onPainter PainterCacheType.VIEWER_DOCUMENT pd
            (PainterCall.source_rgb 1 1 1),
          RenderEvent.onPainter PainterCacheType.VIEWER_DOCUMENT pd
            (PainterCall.lineWidthCompensation 0.5)] ++
         r._entityContainer.allEntities.map (fun item =>
           RenderEvent.onPainter PainterCacheType.VIEWER_DOCUMENT pd
             (PainterCall.drawEntity item r._visibleUserArea)) ++
         [RenderEvent.wPainter PainterCacheType.VIEWER_DOCUMENT pd]) ++
        ([RenderEvent.onPainter PainterCacheType.VIEWER_DRAWING pf
            (PainterCall.clear 1 1 1 (some 0.0))] ++
         r._foregroundItems.map (fun item =>
           RenderEvent.onPainter PainterCacheType.VIEWER_DRAWING pf
             (PainterCall.drawItem item r._visibleUserArea)) ++
         [RenderEvent.wPainter PainterCacheType.VIEWER_DRAWING pf]) :=
  ⟨_, _, _, rfl⟩

/-- C19, as stated, fails: with one background item registered, the first call on the
background surface in the render pass is the draw call of the item; no clear comes before
it. -/
theorem RendererState.render_background_not_cleared :
    (exampleView.addBackgroundItem (7 : Nat))._backgroundItems = [(7 : Nat)] ∧
    clearedBeforeDraws PainterCacheType.VIEWER_BACKGROUND false
      (((exampleView.addBackgroundItem (7 : Nat)).render exampleBackend).2.2) = false := by
  decide!

/-- C19, amended: in every render pass the document surface and the foreground surface are
cleared before any item is drawn on them. The background surface is cleared when no
background item is registered (the flat fill); when background items are registered they
are drawn on the background surface without a clear, and the pass has no clear call on
that surface. -/
theorem RendererState.render_clears {V : ViewerTypes} {W : Type} (r : RendererState V W)
    (b : Backend LcPainter W) :
    clearedBeforeDraws PainterCacheType.VIEWER_DOCUMENT false (r.render b).2.2 = true ∧
    clearedBeforeDraws PainterCacheType.VIEWER_DRAWING false (r.render b).2.2 = true ∧
    (r._backgroundItems = [] →
      clearedBeforeDraws PainterCacheType.VIEWER_BACKGROUND false (r.render b).2.2 = true ∧
      ∃ pb, RenderEvent.onPainter PainterCacheType.VIEWER_BACKGROUND pb
        (PainterCall.clear 0 0.1 0 none) ∈ (r.render b).2.2) ∧
    (r._backgroundItems ≠ [] →
      clearedBeforeDraws PainterCacheType.VIEWER_BACKGROUND false (r.render b).2.2 = false ∧
      ∀ e ∈ (r.render b).2.2,
        e.purpose = PainterCacheType.VIEWER_BACKGROUND → e.isClear = false) := by
  obtain ⟨pb, pd, pf, hev⟩ := RendererState.render_events r b
  rw [hev]
  have hbg : ∀ e ∈ ((if r._backgroundItems.length = 0 then
            [RenderEvent.onPainter PainterCacheType.VIEWER_BACKGROUND pb
              (PainterCall.clear 0 0.1 0 none)]
          else []) ++
         r._backgroundItems.map (fun item =>
           RenderEvent.onPainter PainterCacheType.VIEWER_BACKGROUND pb
             (PainterCall.drawItem item r._visibleUserArea)) ++
         [RenderEvent.wPainter PainterCacheType.VIEWER_BACKGROUND pb]),
      e.purpose = PainterCacheType.VIEWER_BACKGROUND := by
    intro e he
    simp only [List.mem_append, List.mem_map, List.mem_singleton] at he
    rcases he with (he | ⟨item, _, rfl⟩) | rfl
    · split at he
      · simp only [List.mem_singleton] at he
        subst he
        rfl
      · simp at he
    · rfl
    · rfl
  have hdoc : ∀ e ∈ ([RenderEvent.onPainter PainterCacheType.VIEWER_DOCUMENT pd
            (PainterCall.clear 1 1 1 (some 0)),
          RenderEvent.onPainter PainterCacheType.VIEWER_DOCUMENT pd
            (PainterCall.source_rgb 1 1 1),
          RenderEvent.onPainter PainterCacheType.VIEWER_DOCUMENT pd
            (PainterCall.lineWidthCompensation 0.5)] ++
         r._entityContainer.allEntities.map (fun item =>
           RenderEvent.onPainter PainterCacheType.VIEWER_DOCUMENT pd
             (PainterCall.drawEntity item r._visibleUserArea)) ++
         [RenderEvent.wPainter PainterCacheType.VIEWER_DOCUMENT pd]),
      e.purpose = PainterCacheType.VIEWER_DOCUMENT ∧ e.isClear = false ∨
      e = RenderEvent.onPainter PainterCacheType.VIEWER_DOCUMENT pd
            (PainterCall.clear 1 1 1 (some 0)) := by
    intro e he
    simp only [List.mem_append, List.mem_map, List.mem_cons, List.mem_singleton,
      List.not_mem_nil, or_false] at he
    rcases he with ((rfl | rfl | rfl) | ⟨item, _, rfl⟩) | rfl
    · exact Or.inr rfl
    · exact Or.inl ⟨rfl, rfl⟩
    · exact Or.inl ⟨rfl, rfl⟩
    · exact Or.inl ⟨rfl, rfl⟩
    · exact Or.inl ⟨rfl, rfl⟩
  have hfg : ∀ e ∈ ([RenderEvent.onPainter PainterCacheType.VIEWER_DRAWING pf
            (PainterCall.clear 1 1 1 (some 0.0))] ++
         r._foregroundItems.map (fun item =>
           RenderEvent.onPainter PainterCacheType.VIEWER_DRAWING pf
             (PainterCall.drawItem item r._visibleUserArea)) ++
         [RenderEvent.wPainter PainterCacheType.VIEWER_DRAWING pf]),
      e.purpose = PainterCacheType.VIEWER_DRAWING := by
    intro e he
    simp only [List.mem_append, List.mem_map, List.mem_singleton] at he
    rcases he with (rfl | ⟨item, _, rfl⟩) | rfl <;> rfl
  refine ⟨?_, ?_, ?_, ?_⟩
  · rw [List.append_assoc, clearedBeforeDraws_skip _ _ _ _
      (fun e he => by rw [hbg e he]; decide)]
    simp only [List.cons_append]
    exact clearedBeforeDraws_cons_clear _ _ _ _ rfl rfl
  · rw [clearedBeforeDraws_skip _ _ _ _ (fun e he => by
      rcases List.mem_append.mp he with h1 | h1
      · rw [hbg e h1]; decide
      · rcases hdoc e h1 with h2 | h2
        · rw [h2.1]; decide
        · rw [h2]
          exact (by decide :
            PainterCacheType.VIEWER_DOCUMENT ≠ PainterCacheType.VIEWER_DRAWING))]
    simp only [List.cons_append]
    exact clearedBeforeDraws_cons_clear _ _ _ _ rfl rfl
  · intro hnil
    simp only [hnil, List.length_nil, if_true, List.map_nil, List.append_nil,
      List.cons_append, List.nil_append]
    exact ⟨clearedBeforeDraws_cons_clear _ _ _ _ rfl rfl, pb, List.mem_cons_self _ _⟩
  · intro hne
    obtain ⟨item, rest, hitems⟩ := List.exists_cons_of_ne_nil hne
    have hlen : ¬ (r._backgroundItems.length = 0) := by
      rw [hitems]; simp
    constructor
    · simp only [if_neg hlen, hitems, List.map_cons, List.nil_append, List.cons_append]
      exact clearedBeforeDraws_cons_draw _ _ _ rfl rfl rfl
    · intro e he hpurpose
      simp only [if_neg hlen, List.nil_append] at he
      rcases List.mem_append.mp he with h1 | h1
      · rcases List.mem_append.mp h1 with h2 | h2
        · simp only [List.mem_append, List.mem_map, List.mem_singleton] at h2
          rcases h2 with ⟨it, _, rfl⟩ | rfl <;> rfl
        · rcases hdoc e h2 with h3 | h3
          · exact h3.2
          · rw [h3] at hpurpose
            exact absurd hpurpose (by decide :
              PainterCacheType.VIEWER_DOCUMENT ≠ PainterCacheType.VIEWER_BACKGROUND)
      · have := hfg e h1
        rw [this] at hpurpose
        exact absurd hpurpose (by decide)

/-- Witness of C19, amended: a render pass with one background item registered. -/
theorem RendererState.render_clears_witness :
    (exampleView.addBackgroundItem (7 : Nat))._backgroundItems ≠ [] ∧
    clearedBeforeDraws PainterCacheType.VIEWER_BACKGROUND false
      (((exampleView.addBackgroundItem (7 : Nat)).render exampleBackend).2.2) = false ∧
    ∀ e ∈ ((exampleView.addBackgroundItem (7 : Nat)).render exampleBackend).2.2,
      e.purpose = PainterCacheType.VIEWER_BACKGROUND → e.isClear = false :=
  ⟨by decide,
   (RendererState.render_clears (exampleView.addBackgroundItem (7 : Nat)) exampleBackend).2.2.2
     (by decide)⟩

/-! ### Synchronization of the cached surfaces -/

theorem scrolled_ctm_congr (p q1 q2 : LcPainter) (factor : ℚ) (x y : Nat)
    (h : q1.ctm = q2.ctm) :
    (scrolled p factor x y q1).ctm = (scrolled p factor x y q2).ctm := by
  simp [scrolled, LcPainter.translate, LcPainter.scale, h]

theorem RendererState.cachedPainter_of_allCached {V : ViewerTypes} {W : Type}
    (r : RendererState V W) (q : PainterCacheType) (b : Backend LcPainter W)
    (hall : r.AllCached) : ∃ p, r._cachedPainters.find? q = some p ∧
      r.cachedPainter q b = (p, r, b) := by
  have hq : (r._cachedPainters.find? q).isSome = true := by
    cases q
    · exact hall.1
    · exact hall.2.1
    · exact hall.2.2
  obtain ⟨p, hp⟩ := Option.isSome_iff_exists.mp hq
  exact ⟨p, hp, RendererState.cachedPainter_of_some r q b p hp⟩

theorem RendererState.render_of_allCached {V : ViewerTypes} {W : Type}
    (r : RendererState V W) (b : Backend LcPainter W) (hall : r.AllCached) :
    ((r.render b).1, (r.render b).2.1) = (r, b) := by
  obtain ⟨pd, _, hd⟩ :=
    RendererState.cachedPainter_of_allCached r PainterCacheType.VIEWER_DOCUMENT b hall
  obtain ⟨pb, _, hb⟩ :=
    RendererState.cachedPainter_of_allCached r PainterCacheType.VIEWER_BACKGROUND b hall
  obtain ⟨pf, _, hf⟩ :=
    RendererState.cachedPainter_of_allCached r PainterCacheType.VIEWER_DRAWING b hall
  simp only [RendererState.render, hd, hb, hf]

theorem RendererState.newDeviceSize_same {V : ViewerTypes} {W : Type}
    (r : RendererState V W) (b : Backend LcPainter W) :
    r.newDeviceSize r._deviceWidth r._deviceHeight b = (r, b) := by
  simp [RendererState.newDeviceSize, DocumentRenderer.newDeviceSize]

theorem RendererState.scrollTo_preserves {V : ViewerTypes} {W : Type}
    (r : RendererState V W) (factor : ℚ) (x y : Nat) (b : Backend LcPainter W)
    (hall : r.AllCached) (hsync : r.Synchronized) :
    (r.scrollTo factor x y b).1.AllCached ∧ (r.scrollTo factor x y b).1.Synchronized ∧
    (r.scrollTo factor x y b).1._deviceWidth = r._deviceWidth ∧
    (r.scrollTo factor x y b).1._deviceHeight = r._deviceHeight := by
  obtain ⟨p, hp, hc⟩ :=
    RendererState.cachedPainter_of_allCached r PainterCacheType.VIEWER_DOCUMENT b hall
  by_cases h : (r._zoomMax ≤ p.currentScale ∧ factor > 1) ∨
      (r._zoomMin ≥ p.currentScale ∧ factor < 1)
  · have := RendererState.scrollTo_rejected r factor x y b (by rw [hc]; exact h)
    rw [this, hc]
    exact ⟨hall, hsync, rfl, rfl⟩
  · rw [RendererState.scrollTo_accepted_of_some r factor x y b p hp h]
    refine ⟨?_, ?_, rfl, rfl⟩
    · simp only [RendererState.AllCached, StdMap.find?_mapValues, Option.isSome_map']
      exact hall
    · intro d hd p1 hp1
      simp only [StdMap.find?_mapValues, hp, Option.map_some', Option.some.injEq] at hd
      simp only [StdMap.values_mapValues, List.mem_map] at hp1
      obtain ⟨q0, hq0, rfl⟩ := hp1
      rw [← hd]
      exact scrolled_ctm_congr p q0 p factor x y (hsync p hp q0 hq0)

theorem RendererState.call_preserves {V : ViewerTypes} {W : Type}
    (r : RendererState V W) (b : Backend LcPainter W) (c : RendererCall)
    (hall : r.AllCached) (hsync : r.Synchronized)
    (hc : ∀ w h, c = RendererCall.newDeviceSize w h →
      w = r._deviceWidth ∧ h = r._deviceHeight) :
    (RendererState.call (r, b) c).1.AllCached ∧
    (RendererState.call (r, b) c).1.Synchronized ∧
    (RendererState.call (r, b) c).1._deviceWidth = r._deviceWidth ∧
    (RendererState.call (r, b) c).1._deviceHeight = r._deviceHeight := by
  cases c with
  | cachedPainter q =>
    obtain ⟨p, _, hq⟩ := RendererState.cachedPainter_of_allCached r q b hall
    simp only [RendererState.call, hq]
    exact ⟨hall, hsync, trivial, trivial⟩
  | scrollTo factor x y =>
    exact RendererState.scrollTo_preserves r factor x y b hall hsync
  | render =>
    have := RendererState.render_of_allCached r b hall
    simp only [RendererState.call, this]
    exact ⟨hall, hsync, trivial, trivial⟩
  | newDeviceSize w h =>
    obtain ⟨hw, hh⟩ := hc w h rfl
    subst hw hh
    simp only [RendererState.call, RendererState.newDeviceSize_same]
    exact ⟨hall, hsync, trivial, trivial⟩

/-- C20, as stated, fails: from the freshly constructed renderer, scrollTo(2, 10, 0)
creates the document surface and scales and translates it; cachedPainter then creates the
background surface with the transform that the create functor gives it. The two surfaces
in the cache differ in scale and translation. -/
theorem RendererState.late_surface_not_synchronized :
    exampleFreshView._cachedPainters.entries = [] ∧
    ((RendererState.calls (exampleFreshView, exampleBackend)
      [RendererCall.scrollTo 2 10 0,
       RendererCall.cachedPainter PainterCacheType.VIEWER_BACKGROUND]).1._cachedPainters.find?
      PainterCacheType.VIEWER_DOCUMENT).map (fun p => p.ctm) = some ⟨2, -5, 0⟩ ∧
    ((RendererState.calls (exampleFreshView, exampleBackend)
      [RendererCall.scrollTo 2 10 0,
       RendererCall.cachedPainter PainterCacheType.VIEWER_BACKGROUND]).1._cachedPainters.find?
      PainterCacheType.VIEWER_BACKGROUND).map (fun p => p.ctm) = some ⟨1, 0, 0⟩ ∧
    ¬ (RendererState.calls (exampleFreshView, exampleBackend)
      [RendererCall.scrollTo 2 10 0,
       RendererCall.cachedPainter PainterCacheType.VIEWER_BACKGROUND]).1.Synchronized := by
  decide!

/-- C20, amended: from a state in which all three surfaces are cached and have the same
scale and translation, every sequence of cachedPainter, scrollTo and render calls, and of
newDeviceSize calls with the current device size, leads to a state in which all three
surfaces are cached and have the scale and translation of the document surface. -/
theorem RendererState.synchronized_after_calls {V : ViewerTypes} {W : Type}
    (r : RendererState V W) (b : Backend LcPainter W) (l : List RendererCall)
    (hall : r.AllCached) (hsync : r.Synchronized)
    (hsize : ∀ w h, RendererCall.newDeviceSize w h ∈ l →
      w = r._deviceWidth ∧ h = r._deviceHeight) :
    (RendererState.calls (r, b) l).1.Synchronized ∧
    (RendererState.calls (r, b) l).1.AllCached := by
  induction l generalizing r b with
  | nil => exact ⟨hsync, hall⟩
  | cons c rest ih =>
    obtain ⟨h1, h2, h3, h4⟩ := RendererState.call_preserves r b c hall hsync
      (fun w h hc => hsize w h (hc ▸ List.mem_cons_self _ _))
    have := ih (RendererState.call (r, b) c).1 (RendererState.call (r, b) c).2 h1 h2
      (fun w h hm => by
        rw [h3, h4]
        exact hsize w h (List.mem_cons_of_mem _ hm))
    simpa [RendererState.calls] using this

/-- Witness of C20, amended: after a first render pass all three surfaces are cached with
the identity transform; two scrolls, a render pass and a lookup follow. -/
theorem RendererState.synchronized_after_calls_witness :
    exampleFullView.AllCached ∧ exampleFullView.Synchronized ∧
    (RendererState.calls (exampleFullView, exampleBackend)
      [RendererCall.scrollTo 2 10 0, RendererCall.render, RendererCall.scrollTo 3 5 5,
       RendererCall.cachedPainter PainterCacheType.VIEWER_DRAWING]).1.Synchronized :=
  ⟨by decide!, by decide!,
   (RendererState.synchronized_after_calls exampleFullView exampleBackend
      [RendererCall.scrollTo 2 10 0, RendererCall.render, RendererCall.scrollTo 3 5 5,
       RendererCall.cachedPainter PainterCacheType.VIEWER_DRAWING]
      (by decide!) (by decide!) (by simp)).1⟩

/-! ### Bounding box and drag points of a radial dimension -/

/-- C21: the bounding box of a DimRadial is the axis-aligned area spanned by middleOfText
and definitionPoint2, its corners being the componentwise minimum and maximum of the two
points; it does not depend on definitionPoint or leader; and the bounding box of E.move(O)
is the bounding box of E translated by O. -/
theorem DimRadial.boundingBox_spec {T : EntityTypes} (e : LibreCAD.DimRadial T)
    (o : Coordinate) (c : IdCounter) :
    e.boundingBox =
      ⟨⟨min e.middleOfText.x e.definitionPoint2.x, min e.middleOfText.y e.definitionPoint2.y⟩,
       ⟨max e.middleOfText.x e.definitionPoint2.x,
        max e.middleOfText.y e.definitionPoint2.y⟩⟩ ∧
    (∀ (definitionPoint : Coordinate) (leader : ℚ),
      ({ e with definitionPoint := definitionPoint, leader := leader } :
        LibreCAD.DimRadial T).boundingBox = e.boundingBox) ∧
    (e.move o c).1.boundingBox = e.boundingBox.translate o := by
  refine ⟨rfl, fun _ _ => rfl, ?_⟩
  simp only [DimRadial.boundingBox, DimRadial.move, DimRadial.DimRadial, DimRadial.setID,
    Area.ofCorners, Area.translate, Coordinate.add_def, min_add_add_right, max_add_add_right]

/-- C22: when the drag-point map holds the indices 0, 1 and 2, setDragPoints returns an
entity with the id of E whose three coordinate fields are the points under 0, 1 and 2 and
whose other fields are those of E; its dragPoints() map is exactly those three entries,
whatever further indices the given map has; and E.setDragPoints(E.dragPoints()) is E in
every field. -/
theorem DimRadial.setDragPoints_spec {T : EntityTypes} (e : LibreCAD.DimRadial T)
    (m : StdMap Nat Coordinate) (c : IdCounter) (p0 p1 p2 : Coordinate)
    (h0 : m.find? 0 = some p0) (h1 : m.find? 1 = some p1) (h2 : m.find? 2 = some p2) :
    e.setDragPoints m c =
      Except.ok
        ({ e with definitionPoint := p0, middleOfText := p1, definitionPoint2 := p2 },
         (freshID c).2) ∧
    ({ e with definitionPoint := p0, middleOfText := p1, definitionPoint2 := p2 } :
      LibreCAD.DimRadial T).dragPoints.entries = [(0, p0), (1, p1), (2, p2)] ∧
    e.setDragPoints e.dragPoints c = Except.ok (e, (freshID c).2) := by
  refine ⟨?_, rfl, ?_⟩
  · unfold DimRadial.setDragPoints
    simp only [StdMap.atKey, h0, h1, h2]
    rfl
  · unfold DimRadial.setDragPoints
    have k0 : e.dragPoints.find? 0 = some e.definitionPoint := rfl
    have k1 : e.dragPoints.find? 1 = some e.middleOfText := rfl
    have k2 : e.dragPoints.find? 2 = some e.definitionPoint2 := rfl
    simp only [StdMap.atKey, k0, k1, k2]
    rfl

/-- Witness of C22: a map with the indices 0, 1, 2 and a further index 5. -/
theorem DimRadial.setDragPoints_spec_witness :
    exampleFullDragPoints.find? 0 = some ⟨9, 9⟩ ∧
    exampleFullDragPoints.find? 1 = some ⟨7, 7⟩ ∧
    exampleFullDragPoints.find? 2 = some ⟨8, 8⟩ ∧
    exampleDimRadial.setDragPoints exampleFullDragPoints 7 =
      Except.ok
        ({ exampleDimRadial with
            definitionPoint := ⟨9, 9⟩, middleOfText := ⟨7, 7⟩, definitionPoint2 := ⟨8, 8⟩ },
         (freshID 7).2) :=
  ⟨by decide, by decide, by decide,
   (DimRadial.setDragPoints_spec exampleDimRadial exampleFullDragPoints 7 ⟨9, 9⟩ ⟨7, 7⟩ ⟨8, 8⟩
      (by decide) (by decide) (by decide)).1⟩

end LibreCAD
